import Mathlib

/-!
# Verification of the metadata extraction and retrieval pipeline

A shallow embedding of the core components of the metadata RAG pipeline:
JSON-like dynamic values (as produced by json.loads), Python dictionaries
as partial maps from string keys, the metadata validator, the document
classifier response parser, the document metadata extractor post-processing,
the token chunker, the settings validation, the retrieval filter builder and
result formatter, and the orchestration state machine.

Python strings are modelled by Lean strings; str.strip is modelled as
removal of leading/trailing ASCII whitespace and str.lower as ASCII
lowercasing, characterwise.
-/

set_option maxHeartbeats 1000000

/-- Dynamic JSON-like values, as held in Python dictionaries produced by
json.loads and manipulated by the pipeline. Numbers are modelled by
rationals; bool is kept separate from num but compares numerically where
Python treats bool as an int. -/
inductive JValue where
  | null : JValue
  | bool (b : Bool) : JValue
  | num (q : ℚ) : JValue
  | str (s : String) : JValue
  | arr (l : List JValue) : JValue
  | obj (l : List (String × JValue)) : JValue

/-- Python truthiness of a JSON value (bool(v)). -/
def jTruthy : JValue → Bool
  | .null => false
  | .bool b => b
  | .num q => q ≠ 0
  | .str s => s ≠ ""
  | .arr l => ¬ l.isEmpty
  | .obj l => ¬ l.isEmpty

/-- Numeric view of a JSON value: Python treats bool as an int, so numeric
comparisons succeed on bools and numbers and raise TypeError otherwise. -/
def pyNum : JValue → Option ℚ
  | .bool b => some (if b then 1 else 0)
  | .num q => some q
  | _ => none

/-- Python length (len(v)): defined for strings, lists and dicts,
TypeError (none) otherwise. -/
def pyLen : JValue → Option ℕ
  | .str s => some s.data.length
  | .arr l => some l.length
  | .obj l => some l.length
  | _ => none

/-- Python equality test of a JSON value against a Python string: only a
string with the same contents compares equal. -/
def jvEqStr (v : JValue) (s : String) : Bool :=
  match v with
  | .str s2 => s2 = s
  | _ => false

/-- Python equality test of a value against None (v is None). -/
def jvIsNull : JValue → Bool
  | .null => true
  | _ => false

/-- Python equality test of a value against the empty list (v == []). -/
def jvIsEmptyArr : JValue → Bool
  | .arr l => l.isEmpty
  | _ => false

/-- Python membership test of a JSON value in a list of Python strings. -/
def jvInStrList (v : JValue) (l : List String) : Bool :=
  match v with
  | .str s => decide (s ∈ l)
  | _ => false

/-- A Python dict with string keys, modelled extensionally as a partial map.
Python dict equality ignores insertion order, matching function equality. -/
def PyDict : Type := String → Option JValue

/-- Dict update d[k] = v. -/
def metaSet (m : PyDict) (k : String) (v : JValue) : PyDict :=
  fun k2 => if k2 = k then some v else m k2

/-- Dict deletion del d[k]. -/
def metaDel (m : PyDict) (k : String) : PyDict :=
  fun k2 => if k2 = k then none else m k2

/-- The empty dict. -/
def metaEmpty : PyDict := fun _ => none

/-- Build a dict from an association list (helper for concrete instances). -/
def metaOfList (l : List (String × JValue)) : PyDict :=
  fun k => (l.find? (fun p => p.1 = k)).map (fun p => p.2)

theorem metaSet_apply (m : PyDict) (k : String) (v : JValue) (k2 : String) :
    metaSet m k v k2 = if k2 = k then some v else m k2 := rfl

theorem metaDel_apply (m : PyDict) (k : String) (k2 : String) :
    metaDel m k k2 = if k2 = k then none else m k2 := rfl

theorem metaEmpty_apply (k : String) : metaEmpty k = none := rfl

/-! ## Python string operations

str.strip() removes leading and trailing whitespace; str.lower() lowercases
characterwise (modelled for the ASCII range). -/

/-- Whitespace test used by the model of str.strip. -/
def wsChar (c : Char) : Bool :=
  c = ' ' || c = '\t' || c = '\n' || c = '\r'

/-- ASCII lowercasing of one character, the character-level model of
str.lower. -/
def lowerChar (c : Char) : Char :=
  if 'A' ≤ c ∧ c ≤ 'Z' then Char.ofNat (c.toNat + 32) else c

/-- Model of str.strip(): drop leading and trailing whitespace. -/
def pyStrip (s : String) : String :=
  String.mk ((s.data.dropWhile wsChar).rdropWhile wsChar)

/-- Model of str.lower(): lowercase every character. -/
def pyLower (s : String) : String :=
  String.mk (s.data.map lowerChar)

theorem char_toNat_ofNat_valid {n : ℕ} (h : n < 55296) :
    (Char.ofNat n).toNat = n := by
  have hv : n.isValidChar := Or.inl h
  simp only [Char.ofNat, hv, dite_true, Char.ofNatAux, Char.toNat, UInt32.toNat]
  simp [BitVec.toNat_ofNatLt]

theorem lowerChar_eq_of_upper {c : Char} (h : 'A' ≤ c ∧ c ≤ 'Z') :
    lowerChar c = Char.ofNat (c.toNat + 32) := by
  show (if 'A' ≤ c ∧ c ≤ 'Z' then Char.ofNat (c.toNat + 32) else c) =
    Char.ofNat (c.toNat + 32)
  rw [if_pos h]

theorem lowerChar_eq_of_not_upper {c : Char} (h : ¬ ('A' ≤ c ∧ c ≤ 'Z')) :
    lowerChar c = c := by
  show (if 'A' ≤ c ∧ c ≤ 'Z' then Char.ofNat (c.toNat + 32) else c) = c
  rw [if_neg h]

theorem wsChar_false_of_toNat {c : Char} (h32 : c.toNat ≠ 32) (h9 : c.toNat ≠ 9)
    (h10 : c.toNat ≠ 10) (h13 : c.toNat ≠ 13) : wsChar c = false := by
  simp only [wsChar, Bool.or_eq_false_iff, decide_eq_false_iff_not]
  refine ⟨⟨⟨fun he => ?_, fun he => ?_⟩, fun he => ?_⟩, fun he => ?_⟩
  · exact h32 (by rw [he]; decide)
  · exact h9 (by rw [he]; decide)
  · exact h10 (by rw [he]; decide)
  · exact h13 (by rw [he]; decide)

theorem wsChar_lowerChar (c : Char) : wsChar (lowerChar c) = wsChar c := by
  by_cases h : 'A' ≤ c ∧ c ≤ 'Z'
  · have hA : 65 ≤ c.toNat := h.1
    have hZ : c.toNat ≤ 90 := h.2
    have htn : (lowerChar c).toNat = c.toNat + 32 := by
      rw [lowerChar_eq_of_upper h]
      exact char_toNat_ofNat_valid (by omega)
    have l1 : wsChar (lowerChar c) = false :=
      wsChar_false_of_toNat (by omega) (by omega) (by omega) (by omega)
    have l2 : wsChar c = false :=
      wsChar_false_of_toNat (by omega) (by omega) (by omega) (by omega)
    rw [l1, l2]
  · rw [lowerChar_eq_of_not_upper h]

theorem lowerChar_lowerChar (c : Char) : lowerChar (lowerChar c) = lowerChar c := by
  by_cases h : 'A' ≤ c ∧ c ≤ 'Z'
  · have hA : 65 ≤ c.toNat := h.1
    have hZ : c.toNat ≤ 90 := h.2
    have htn : (lowerChar c).toNat = c.toNat + 32 := by
      rw [lowerChar_eq_of_upper h]
      exact char_toNat_ofNat_valid (by omega)
    have h2 : ¬ ('A' ≤ lowerChar c ∧ lowerChar c ≤ 'Z') := by
      rintro ⟨_, hz⟩
      have hzn : (lowerChar c).toNat ≤ 90 := hz
      omega
    rw [lowerChar_eq_of_not_upper h2]
  · rw [lowerChar_eq_of_not_upper h, lowerChar_eq_of_not_upper h]

/-- The list-level trimming underlying pyStrip. -/
def trimList (l : List Char) : List Char :=
  (l.dropWhile wsChar).rdropWhile wsChar

theorem dropWhile_trimList (l : List Char) :
    (trimList l).dropWhile wsChar = trimList l := by
  rw [List.dropWhile_eq_self_iff]
  intro hl
  have hpre := List.rdropWhile_prefix wsChar (l.dropWhile wsChar)
  have hl2 : 0 < (List.rdropWhile wsChar (List.dropWhile wsChar l)).length := hl
  have hlen : 0 < (l.dropWhile wsChar).length :=
    lt_of_lt_of_le hl2 (List.IsPrefix.length_le hpre)
  have hg : (List.rdropWhile wsChar (List.dropWhile wsChar l)).get ⟨0, hl2⟩ =
      (l.dropWhile wsChar).get ⟨0, hlen⟩ := by
    simp only [List.get_eq_getElem]
    exact List.IsPrefix.getElem hpre hl2
  have hgoal : (trimList l).get ⟨0, hl⟩ = (l.dropWhile wsChar).get ⟨0, hlen⟩ := hg
  rw [hgoal]
  have := List.dropWhile_get_zero_not wsChar l hlen
  simpa using this

theorem rdropWhile_trimList (l : List Char) :
    (trimList l).rdropWhile wsChar = trimList l :=
  List.rdropWhile_idempotent wsChar (l.dropWhile wsChar)

theorem trimList_trimList (l : List Char) :
    trimList (trimList l) = trimList l := by
  show ((trimList l).dropWhile wsChar).rdropWhile wsChar = trimList l
  rw [dropWhile_trimList, rdropWhile_trimList]

theorem trimList_map_lowerChar (l : List Char) :
    trimList ((trimList l).map lowerChar) = (trimList l).map lowerChar := by
  show (((trimList l).map lowerChar).dropWhile wsChar).rdropWhile wsChar =
    (trimList l).map lowerChar
  have h1 : ((trimList l).map lowerChar).dropWhile wsChar =
      (trimList l).map lowerChar := by
    rw [List.dropWhile_eq_self_iff]
    intro hl
    have hm : 0 < (trimList l).length := by simpa using hl
    simp only [List.get_eq_getElem, List.getElem_map]
    rw [wsChar_lowerChar]
    have h2 := (List.dropWhile_eq_self_iff).mp (dropWhile_trimList l) hm
    simpa using h2
  rw [h1, List.rdropWhile_eq_self_iff]
  intro hl
  have hm : trimList l ≠ [] := by
    intro h0
    rw [h0] at hl
    simp at hl
  rw [List.getLast_map]
  rw [wsChar_lowerChar]
  exact (List.rdropWhile_eq_self_iff).mp (rdropWhile_trimList l) hm

theorem pyStrip_data (s : String) : (pyStrip s).data = trimList s.data := rfl

theorem pyStrip_pyStrip (s : String) : pyStrip (pyStrip s) = pyStrip s :=
  congrArg String.mk (trimList_trimList s.data)

theorem pyStrip_pyLower_pyStrip (s : String) :
    pyStrip (pyLower (pyStrip s)) = pyLower (pyStrip s) :=
  congrArg String.mk (trimList_map_lowerChar s.data)

theorem pyLower_pyLower (s : String) : pyLower (pyLower s) = pyLower s := by
  apply congrArg String.mk
  show (s.data.map lowerChar).map lowerChar = s.data.map lowerChar
  rw [List.map_map]
  exact List.map_congr_left (fun a _ => lowerChar_lowerChar a)

/-! ## Field-name constants (keys of the metadata dictionaries) -/

def kDocumentType : String := "document_type"
def kDepartment : String := "department"
def kAuthorityLevel : String := "authority_level"
def kVersion : String := "version"
def kDocumentSummary : String := "document_summary"
def kTopics : String := "topics"
def kIntendedAudience : String := "intended_audience"
def kKeyEntities : String := "key_entities"
def kGeographicScope : String := "geographic_scope"
def kEffectiveDate : String := "effective_date"
def kExpirationDate : String := "expiration_date"
def kClassificationConfidence : String := "classification_confidence"
def kComplexity : String := "complexity"
def kRequiresDeepAnalysis : String := "requires_deep_analysis"
def kConfidence : String := "confidence"
def kReasoning : String := "reasoning"
def kRequiresAcknowledgment : String := "requires_acknowledgment"
def kComplianceRelated : String := "compliance_related"

/-! ## Controlled vocabularies (config/business_rules.py) -/

def DOCUMENT_TYPES : List String :=
  ["HR Policy", "Technical Manual", "Financial Report", "Legal Document",
   "Memo", "Procedure", "Guideline", "Standard Operating Procedure", "Other"]

def DEPARTMENTS : List String :=
  ["HR", "Engineering", "Finance", "Legal", "Operations", "Marketing",
   "Sales", "Executive", "IT", "Cross-Functional"]

def AUTHORITY_LEVELS : List String :=
  ["official", "draft", "archived", "deprecated", "reference"]

def INTENDED_AUDIENCES : List String :=
  ["all_employees", "managers", "executives", "engineers", "hr_staff",
   "finance_team", "legal_team", "contractors", "new_hires",
   "specific_department"]

def COMPLEXITY_LEVELS : List String := ["simple", "structured", "complex"]

/-! ## MetadataValidator._fix_minor_issues (src/metadata/validator.py)

The pass trims string fields, lowercases authority_level, coerces array
fields to lists while stripping/filtering their entries, and deletes
now-empty optional fields, mirroring the Python loops field by field. -/

/-- Keep-condition of the array-entry comprehension:
item and (not isinstance(item, str) or item.strip()). -/
def keepItem (v : JValue) : Bool :=
  jTruthy v && (match v with
    | .str s => pyStrip s ≠ ""
    | _ => true)

/-- Entry transformation of the array-entry comprehension:
item.strip() if isinstance(item, str) else item. -/
def stepItem : JValue → JValue
  | .str s => .str (pyStrip s)
  | v => v

/-- The array-entry comprehension itself. -/
def processItems (l : List JValue) : List JValue :=
  (l.filter keepItem).map stepItem

/-- Coercion of a single value to a list ([v] if not already a list). -/
def toListVal : JValue → List JValue
  | .arr l => l
  | v => [v]

/-- One iteration of the string-field loop: strip if present and a string. -/
def fixStringField (m : PyDict) (f : String) : PyDict :=
  match m f with
  | some (.str s) => metaSet m f (.str (pyStrip s))
  | _ => m

/-- One iteration of the enum-field loop: lowercase if present and a string. -/
def lowerStringField (m : PyDict) (f : String) : PyDict :=
  match m f with
  | some (.str s) => metaSet m f (.str (pyLower s))
  | _ => m

/-- One iteration of the array-field loop: wrap scalars into a list, then
strip entries and drop falsy/blank ones. -/
def fixArrayField (m : PyDict) (f : String) : PyDict :=
  match m f with
  | some v => metaSet m f (.arr (processItems (toListVal v)))
  | none => m

/-- One iteration of the empty-optional-field loop: delete if present and
falsy. -/
def dropEmptyField (m : PyDict) (f : String) : PyDict :=
  match m f with
  | some v => if jTruthy v then m else metaDel m f
  | none => m

/-- MetadataValidator._fix_minor_issues, with the four loops unrolled over
their literal field lists in source order. -/
def fixMinorIssues (m : PyDict) : PyDict :=
  let m1 := fixStringField m kDocumentType
  let m2 := fixStringField m1 kDepartment
  let m3 := fixStringField m2 kAuthorityLevel
  let m4 := fixStringField m3 kVersion
  let m5 := fixStringField m4 kDocumentSummary
  let m6 := lowerStringField m5 kAuthorityLevel
  let m7 := fixArrayField m6 kTopics
  let m8 := fixArrayField m7 kIntendedAudience
  let m9 := fixArrayField m8 kKeyEntities
  let m10 := dropEmptyField m9 kKeyEntities
  let m11 := dropEmptyField m10 kGeographicScope
  dropEmptyField m11 kExpirationDate

/-! ### Key-wise characterization of the fixing pass -/

/-- Value-level effect of stripping a possibly-present string field. -/
def valStrip : Option JValue → Option JValue
  | some (.str s) => some (.str (pyStrip s))
  | x => x

/-- Value-level effect of lowercasing a possibly-present string field. -/
def valLower : Option JValue → Option JValue
  | some (.str s) => some (.str (pyLower s))
  | x => x

/-- Value-level effect of the array coercion/cleanup. -/
def valArrFix : Option JValue → Option JValue
  | some v => some (.arr (processItems (toListVal v)))
  | none => none

/-- Value-level effect of dropping an empty optional field. -/
def valDropEmpty : Option JValue → Option JValue
  | some v => if jTruthy v then some v else none
  | none => none

theorem fixStringField_apply (m : PyDict) (f k : String) :
    fixStringField m f k = if k = f then valStrip (m f) else m k := by
  unfold fixStringField valStrip
  by_cases hk : k = f
  · rcases hm : m f with _ | v
    · simp [hm, hk]
    · cases v <;> simp [hm, hk, metaSet_apply]
  · rcases hm : m f with _ | v
    · simp [hm, hk]
    · cases v <;> simp [hm, hk, metaSet_apply]

theorem lowerStringField_apply (m : PyDict) (f k : String) :
    lowerStringField m f k = if k = f then valLower (m f) else m k := by
  unfold lowerStringField valLower
  by_cases hk : k = f
  · rcases hm : m f with _ | v
    · simp [hm, hk]
    · cases v <;> simp [hm, hk, metaSet_apply]
  · rcases hm : m f with _ | v
    · simp [hm, hk]
    · cases v <;> simp [hm, hk, metaSet_apply]

theorem fixArrayField_apply (m : PyDict) (f k : String) :
    fixArrayField m f k = if k = f then valArrFix (m f) else m k := by
  unfold fixArrayField valArrFix
  by_cases hk : k = f
  · rcases hm : m f with _ | v
    · simp [hm, hk]
    · simp [hm, hk, metaSet_apply]
  · rcases hm : m f with _ | v
    · simp [hm, hk]
    · simp [hm, hk, metaSet_apply]

theorem dropEmptyField_apply (m : PyDict) (f k : String) :
    dropEmptyField m f k = if k = f then valDropEmpty (m f) else m k := by
  unfold dropEmptyField valDropEmpty
  by_cases hk : k = f
  · rcases hm : m f with _ | v
    · simp [hm, hk]
    · by_cases ht : jTruthy v <;> simp [hm, hk, ht, metaDel_apply]
  · rcases hm : m f with _ | v
    · simp [hm, hk]
    · by_cases ht : jTruthy v <;> simp [hm, hk, ht, metaDel_apply]

/-- The whole fixing pass, described key by key. -/
theorem fixMinorIssues_apply (m : PyDict) (k : String) :
    fixMinorIssues m k =
      if k = kDocumentType then valStrip (m k)
      else if k = kDepartment then valStrip (m k)
      else if k = kAuthorityLevel then valLower (valStrip (m k))
      else if k = kVersion then valStrip (m k)
      else if k = kDocumentSummary then valStrip (m k)
      else if k = kTopics then valArrFix (m k)
      else if k = kIntendedAudience then valArrFix (m k)
      else if k = kKeyEntities then valDropEmpty (valArrFix (m k))
      else if k = kGeographicScope then valDropEmpty (m k)
      else if k = kExpirationDate then valDropEmpty (m k)
      else m k := by
  unfold fixMinorIssues
  simp only [fixStringField_apply, lowerStringField_apply, fixArrayField_apply,
    dropEmptyField_apply]
  by_cases h1 : k = kDocumentType
  · simp [h1, kDocumentType, kDepartment, kAuthorityLevel, kVersion,
      kDocumentSummary, kTopics, kIntendedAudience, kKeyEntities,
      kGeographicScope, kExpirationDate]
  by_cases h2 : k = kDepartment
  · simp [h1, h2, kDocumentType, kDepartment, kAuthorityLevel, kVersion,
      kDocumentSummary, kTopics, kIntendedAudience, kKeyEntities,
      kGeographicScope, kExpirationDate]
  by_cases h3 : k = kAuthorityLevel
  · simp [h1, h2, h3, kDocumentType, kDepartment, kAuthorityLevel, kVersion,
      kDocumentSummary, kTopics, kIntendedAudience, kKeyEntities,
      kGeographicScope, kExpirationDate]
  by_cases h4 : k = kVersion
  · simp [h1, h2, h3, h4, kDocumentType, kDepartment, kAuthorityLevel,
      kVersion, kDocumentSummary, kTopics, kIntendedAudience, kKeyEntities,
      kGeographicScope, kExpirationDate]
  by_cases h5 : k = kDocumentSummary
  · simp [h1, h2, h3, h4, h5, kDocumentType, kDepartment, kAuthorityLevel,
      kVersion, kDocumentSummary, kTopics, kIntendedAudience, kKeyEntities,
      kGeographicScope, kExpirationDate]
  by_cases h6 : k = kTopics
  · simp [h1, h2, h3, h4, h5, h6, kDocumentType, kDepartment,
      kAuthorityLevel, kVersion, kDocumentSummary, kTopics,
      kIntendedAudience, kKeyEntities, kGeographicScope, kExpirationDate]
  by_cases h7 : k = kIntendedAudience
  · simp [h1, h2, h3, h4, h5, h6, h7, kDocumentType, kDepartment,
      kAuthorityLevel, kVersion, kDocumentSummary, kTopics,
      kIntendedAudience, kKeyEntities, kGeographicScope, kExpirationDate]
  by_cases h8 : k = kKeyEntities
  · simp [h1, h2, h3, h4, h5, h6, h7, h8, kDocumentType, kDepartment,
      kAuthorityLevel, kVersion, kDocumentSummary, kTopics,
      kIntendedAudience, kKeyEntities, kGeographicScope, kExpirationDate]
  by_cases h9 : k = kGeographicScope
  · simp [h1, h2, h3, h4, h5, h6, h7, h8, h9, kDocumentType, kDepartment,
      kAuthorityLevel, kVersion, kDocumentSummary, kTopics,
      kIntendedAudience, kKeyEntities, kGeographicScope, kExpirationDate]
  by_cases h10 : k = kExpirationDate
  · simp [h1, h2, h3, h4, h5, h6, h7, h8, h9, h10, kDocumentType,
      kDepartment, kAuthorityLevel, kVersion, kDocumentSummary, kTopics,
      kIntendedAudience, kKeyEntities, kGeographicScope, kExpirationDate]
  · simp [h1, h2, h3, h4, h5, h6, h7, h8, h9, h10]

/-! ### Idempotence of the individual fixes -/

theorem keepItem_stepItem {v : JValue} (h : keepItem v = true) :
    keepItem (stepItem v) = true ∧ stepItem (stepItem v) = stepItem v := by
  cases v with
  | str s =>
    simp only [keepItem, stepItem, jTruthy, Bool.and_eq_true,
      decide_eq_true_eq] at h ⊢
    refine ⟨⟨h.2, ?_⟩, ?_⟩
    · rw [pyStrip_pyStrip]
      exact h.2
    · rw [pyStrip_pyStrip]
  | null => simp [keepItem, jTruthy] at h
  | bool b => simpa [keepItem, stepItem, jTruthy] using h
  | num q => simpa [keepItem, stepItem, jTruthy] using h
  | arr l => simpa [keepItem, stepItem, jTruthy] using h
  | obj l => simpa [keepItem, stepItem, jTruthy] using h

theorem processItems_idem (l : List JValue) :
    processItems (processItems l) = processItems l := by
  unfold processItems
  have hfilter : ((l.filter keepItem).map stepItem).filter keepItem =
      (l.filter keepItem).map stepItem := by
    rw [List.filter_eq_self]
    intro x hx
    obtain ⟨y, hy, rfl⟩ := List.mem_map.mp hx
    exact (keepItem_stepItem (List.of_mem_filter hy)).1
  rw [hfilter, List.map_map]
  apply List.map_congr_left
  intro y hy
  exact (keepItem_stepItem (List.of_mem_filter hy)).2

theorem valStrip_idem (x : Option JValue) : valStrip (valStrip x) = valStrip x := by
  rcases x with _ | v
  · rfl
  · cases v <;> simp [valStrip, pyStrip_pyStrip]

theorem valLowerStrip_idem (x : Option JValue) :
    valLower (valStrip (valLower (valStrip x))) = valLower (valStrip x) := by
  rcases x with _ | v
  · rfl
  · cases v <;>
      simp [valStrip, valLower, pyStrip_pyLower_pyStrip, pyLower_pyLower]

theorem valArrFix_idem (x : Option JValue) :
    valArrFix (valArrFix x) = valArrFix x := by
  rcases x with _ | v
  · rfl
  · simp [valArrFix, toListVal, processItems_idem]

theorem valDropEmpty_idem (x : Option JValue) :
    valDropEmpty (valDropEmpty x) = valDropEmpty x := by
  rcases x with _ | v
  · rfl
  · by_cases ht : jTruthy v <;> simp [valDropEmpty, ht]

theorem valDropArr_idem (x : Option JValue) :
    valDropEmpty (valArrFix (valDropEmpty (valArrFix x))) =
      valDropEmpty (valArrFix x) := by
  rcases x with _ | v
  · rfl
  · show valDropEmpty (valArrFix (valDropEmpty
        (some (JValue.arr (processItems (toListVal v)))))) =
      valDropEmpty (some (JValue.arr (processItems (toListVal v))))
    have h1 : valDropEmpty (some (JValue.arr (processItems (toListVal v)))) =
        if jTruthy (JValue.arr (processItems (toListVal v))) then
          some (JValue.arr (processItems (toListVal v))) else none := rfl
    by_cases ht : jTruthy (JValue.arr (processItems (toListVal v)))
    · rw [h1, if_pos ht]
      have h2 : valArrFix (some (JValue.arr (processItems (toListVal v)))) =
          some (JValue.arr (processItems (toListVal v))) := by
        show some (JValue.arr (processItems (toListVal
          (JValue.arr (processItems (toListVal v)))))) = _
        rw [show toListVal (JValue.arr (processItems (toListVal v))) =
          processItems (toListVal v) from rfl, processItems_idem]
      rw [h2, h1, if_pos ht]
    · rw [h1, if_neg ht]
      rfl

/-- C9 helper: the fixing pass is idempotent, keywise. -/
theorem fixMinorIssues_idem_key (m : PyDict) (k : String) :
    fixMinorIssues (fixMinorIssues m) k = fixMinorIssues m k := by
  rw [fixMinorIssues_apply (fixMinorIssues m) k, fixMinorIssues_apply m k]
  by_cases h1 : k = kDocumentType
  · simp [h1, kDocumentType, kDepartment, kAuthorityLevel, kVersion, kDocumentSummary, kTopics, kIntendedAudience, kKeyEntities, kGeographicScope, kExpirationDate, valStrip_idem]
  by_cases h2 : k = kDepartment
  · simp [h1, h2, kDocumentType, kDepartment, kAuthorityLevel, kVersion, kDocumentSummary, kTopics, kIntendedAudience, kKeyEntities, kGeographicScope, kExpirationDate, valStrip_idem]
  by_cases h3 : k = kAuthorityLevel
  · simp [h1, h2, h3, kDocumentType, kDepartment, kAuthorityLevel, kVersion, kDocumentSummary, kTopics, kIntendedAudience, kKeyEntities, kGeographicScope, kExpirationDate, valLowerStrip_idem]
  by_cases h4 : k = kVersion
  · simp [h1, h2, h3, h4, kDocumentType, kDepartment, kAuthorityLevel, kVersion, kDocumentSummary, kTopics, kIntendedAudience, kKeyEntities, kGeographicScope, kExpirationDate, valStrip_idem]
  by_cases h5 : k = kDocumentSummary
  · simp [h1, h2, h3, h4, h5, kDocumentType, kDepartment, kAuthorityLevel, kVersion, kDocumentSummary, kTopics, kIntendedAudience, kKeyEntities, kGeographicScope, kExpirationDate, valStrip_idem]
  by_cases h6 : k = kTopics
  · simp [h1, h2, h3, h4, h5, h6, kDocumentType, kDepartment, kAuthorityLevel, kVersion, kDocumentSummary, kTopics, kIntendedAudience, kKeyEntities, kGeographicScope, kExpirationDate, valArrFix_idem]
  by_cases h7 : k = kIntendedAudience
  · simp [h1, h2, h3, h4, h5, h6, h7, kDocumentType, kDepartment, kAuthorityLevel, kVersion, kDocumentSummary, kTopics, kIntendedAudience, kKeyEntities, kGeographicScope, kExpirationDate, valArrFix_idem]
  by_cases h8 : k = kKeyEntities
  · simp [h1, h2, h3, h4, h5, h6, h7, h8, kDocumentType, kDepartment, kAuthorityLevel, kVersion, kDocumentSummary, kTopics, kIntendedAudience, kKeyEntities, kGeographicScope, kExpirationDate, valDropArr_idem]
  by_cases h9 : k = kGeographicScope
  · simp [h1, h2, h3, h4, h5, h6, h7, h8, h9, kDocumentType, kDepartment, kAuthorityLevel, kVersion, kDocumentSummary, kTopics, kIntendedAudience, kKeyEntities, kGeographicScope, kExpirationDate, valDropEmpty_idem]
  by_cases h10 : k = kExpirationDate
  · simp [h1, h2, h3, h4, h5, h6, h7, h8, h9, h10, kDocumentType, kDepartment, kAuthorityLevel, kVersion, kDocumentSummary, kTopics, kIntendedAudience, kKeyEntities, kGeographicScope, kExpirationDate, valDropEmpty_idem]
  · simp [h1, h2, h3, h4, h5, h6, h7, h8, h9, h10]

/-! ## Business rules validation (config/business_rules.py) and
MetadataValidator (src/metadata/validator.py) -/

def requiredMetadataFields : List String :=
  [kDocumentType, kDepartment, kAuthorityLevel, kTopics, kIntendedAudience]

/-- Printer used when interpolating a value into an error message; the
exact text only matters through being part of a non-empty message. -/
def jvString : JValue → String
  | .null => "None"
  | .bool b => if b then "True" else "False"
  | .num q => toString q
  | .str s => s
  | .arr _ => "<list>"
  | .obj _ => "<dict>"

def dotStr : String := "."

/-- Nonempty all-digit character run (the d+ pieces of the version regex). -/
def isDigitsList (l : List Char) : Bool :=
  !l.isEmpty && l.all (fun c => c.isDigit)

/-- Recognizer for the version pattern digits.digits with an optional
third .digits group. -/
def versionOk (s : String) : Bool :=
  match s.splitOn dotStr with
  | [a, b] => isDigitsList a.data && isDigitsList b.data
  | [a, b, c] => isDigitsList a.data && isDigitsList b.data && isDigitsList c.data
  | _ => false

/-- Recognizer for the date pattern of four digits, dash, two digits, dash,
two digits. -/
def dateOk (s : String) : Bool :=
  match s.data with
  | [y1, y2, y3, y4, d1, mo1, mo2, d2, a1, a2] =>
      y1.isDigit && y2.isDigit && y3.isDigit && y4.isDigit && d1 = '-' &&
      mo1.isDigit && mo2.isDigit && d2 = '-' && a1.isDigit && a2.isDigit
  | _ => false

/-- Python comparison a <= b between two JSON values: string-string compares
lexicographically, numeric kinds compare numerically, anything else raises
TypeError. -/
def pyLeB : JValue → JValue → Option Bool
  | .str a, .str b => some (decide (a ≤ b))
  | x, y =>
    match pyNum x, pyNum y with
    | some qa, some qb => some (decide (qa ≤ qb))
    | _, _ => none

/-- validate_metadata_completeness from config/business_rules.py: all
violations collected in source order, never raising. -/
def validateMetadataCompleteness (m : PyDict) : List String :=
  ((requiredMetadataFields.filter (fun f => (m f).isNone)).map
    (fun f => "Missing required field: " ++ f))
  ++ (match m kDocumentType with
      | some v =>
        if jvInStrList v DOCUMENT_TYPES then [] else
          ["Invalid document_type: " ++ jvString v]
      | none => [])
  ++ (match m kDepartment with
      | some v =>
        if jvInStrList v DEPARTMENTS then [] else
          ["Invalid department: " ++ jvString v]
      | none => [])
  ++ (match m kAuthorityLevel with
      | some v =>
        if jvInStrList v AUTHORITY_LEVELS then [] else
          ["Invalid authority_level: " ++ jvString v]
      | none => [])
  ++ (match m kTopics with
      | some (.arr l) =>
          if l.length < 1 then ["Must have at least 1 topic"]
          else if l.length > 10 then ["Cannot have more than 10 topics"]
          else []
      | some _ => ["topics must be an array"]
      | none => [])
  ++ (match m kIntendedAudience with
      | some (.arr l) =>
          (l.filter (fun a => ¬ jvInStrList a INTENDED_AUDIENCES)).map
            (fun a => "Invalid audience: " ++ jvString a)
      | some _ => ["intended_audience must be an array"]
      | none => [])

/-- Version-format check of _validate_business_rules; re.match on a
non-string raises TypeError (modelled by the error case). -/
def versionErrors (m : PyDict) : Except Unit (List String) :=
  match m kVersion with
  | none => .ok []
  | some (.str s) =>
      if versionOk s then .ok [] else .ok ["Invalid version format: " ++ s]
  | some _ => .error ()

/-- Date-format check of _validate_business_rules for one date field. -/
def dateFieldErrors (m : PyDict) (f : String) : Except Unit (List String) :=
  match m f with
  | none => .ok []
  | some v =>
      if jTruthy v then
        match v with
        | .str s =>
            if dateOk s then .ok [] else
              .ok ["Invalid " ++ f ++ " format: " ++ s]
        | _ => .error ()
      else .ok []

/-- Summary-length check of _validate_business_rules; len() of an unsized
value raises TypeError. -/
def summaryErrors (m : PyDict) : Except Unit (List String) :=
  match m kDocumentSummary with
  | none => .ok []
  | some v =>
      match pyLen v with
      | none => .error ()
      | some n =>
          .ok ((if n < 50 then ["Summary too short"] else []) ++
               (if n > 500 then ["Summary too long"] else []))

/-- Confidence-range check of _validate_business_rules. -/
def confidenceErrors (m : PyDict) : Except Unit (List String) :=
  match m kClassificationConfidence with
  | none => .ok []
  | some v =>
      match pyNum v with
      | none => .error ()
      | some q => .ok (if 0 ≤ q ∧ q ≤ 1 then [] else ["Confidence out of range"])

/-- Expiration-after-effective check of _validate_business_rules. -/
def dateOrderErrors (m : PyDict) : Except Unit (List String) :=
  match m kEffectiveDate, m kExpirationDate with
  | some ve, some vx =>
      if jTruthy ve && jTruthy vx then
        match pyLeB vx ve with
        | none => .error ()
        | some b =>
            .ok (if b then ["expiration_date must be after effective_date"]
                 else [])
      else .ok []
  | _, _ => .ok []

/-- MetadataValidator._validate_business_rules: completeness check plus the
format/range/order checks, collecting errors in source order; raises
(error case) on the TypeErrors Python would raise. -/
def businessRulesErrors (m : PyDict) : Except Unit (List String) := do
  let e1 := validateMetadataCompleteness m
  let e2 ← versionErrors m
  let e3 ← dateFieldErrors m kEffectiveDate
  let e4 ← dateFieldErrors m kExpirationDate
  let e5 ← summaryErrors m
  let e6 ← confidenceErrors m
  let e7 ← dateOrderErrors m
  return e1 ++ e2 ++ e3 ++ e4 ++ e5 ++ e6 ++ e7

/-- Modelled from the spec: the JSON schema file config/metadata_schema.json
is not among the sources (only validator.py, which loads it, is); section 3
of the specification lists the required DocumentMetadata fields
document_type, department, authority_level, topics and intended_audience,
which Draft7 schema validation reports as required-property errors. -/
def schemaErrors (m : PyDict) : List String :=
  (requiredMetadataFields.filter (fun f => (m f).isNone)).map
    (fun f => f ++ " is a required property")

/-- Exceptions escaping MetadataValidator.validate. -/
inductive VError where
  | validationErr (errors : List String)
  | typeErr

/-- MetadataValidator.validate: optional fixing pass, schema errors,
business-rule errors; raises MetadataValidationError when strict and any
error exists, otherwise returns the (possibly fixed) metadata. -/
def pyValidate (m : PyDict) (strict fix : Bool) : Except VError PyDict :=
  let m2 := if fix then fixMinorIssues m else m
  let se := schemaErrors m2
  match businessRulesErrors m2 with
  | .error _ => .error .typeErr
  | .ok be =>
      let all := se ++ be
      if !all.isEmpty && strict then .error (.validationErr all) else .ok m2

/-- MetadataValidator.is_high_confidence (threshold 0.9; numeric comparison
with a non-number raises TypeError). -/
def isHighConfidence (m : PyDict) : Except Unit Bool :=
  match m kClassificationConfidence with
  | none => .ok false
  | some v =>
      match pyNum v with
      | none => .error ()
      | some q => .ok (decide ((9 : ℚ)/10 ≤ q))

/-- MetadataValidator.is_low_confidence (threshold 0.7; missing confidence
counts as low). -/
def isLowConfidence (m : PyDict) : Except Unit Bool :=
  match m kClassificationConfidence with
  | none => .ok true
  | some v =>
      match pyNum v with
      | none => .error ()
      | some q => .ok (decide (q < (7 : ℚ)/10))

/-- The dictionary returned by get_validation_summary. -/
structure VSummary where
  is_valid : Bool
  error_count : ℕ
  errors : List String
  is_high_confidence : Bool
  is_low_confidence : Bool
  has_required_fields : Bool

def typeErrorText : String := "TypeError"

/-- MetadataValidator.get_validation_summary: calls validate with
strict=False inside a try, harvesting errors only from a raised exception;
the confidence helpers run outside the try. -/
def getValidationSummary (m : PyDict) : Except Unit VSummary := do
  let ve : Bool × List String :=
    match pyValidate m false true with
    | .ok _ => (true, [])
    | .error (.validationErr es) => (false, es)
    | .error .typeErr => (false, [typeErrorText])
  let hc ← isHighConfidence m
  let lc ← isLowConfidence m
  return { is_valid := ve.1, error_count := ve.2.length, errors := ve.2,
           is_high_confidence := hc, is_low_confidence := lc,
           has_required_fields :=
             requiredMetadataFields.all (fun f => (m f).isSome) }

/-- C9: the validator minor-issue fixing pass is idempotent: applying
_fix_minor_issues twice yields the same mapping as applying it once. -/
theorem c9_fix_minor_issues_idempotent (m : PyDict) :
    fixMinorIssues (fixMinorIssues m) = fixMinorIssues m :=
  funext (fun k => fixMinorIssues_idem_key m k)

/-- C2 (code-bug evidence): on the empty metadata mapping the business-rule
pass collects five missing-required-field errors and validate with
strict=False returns normally, yet get_validation_summary reports
is_valid=true with an empty error list, because it calls validate with
strict=False and so its exception handler that would harvest the errors can
never fire on validation errors. -/
theorem c2_summary_reports_valid_despite_errors :
    businessRulesErrors (fixMinorIssues metaEmpty) =
      .ok ["Missing required field: document_type",
           "Missing required field: department",
           "Missing required field: authority_level",
           "Missing required field: topics",
           "Missing required field: intended_audience"] ∧
    pyValidate metaEmpty false true = .ok (fixMinorIssues metaEmpty) ∧
    getValidationSummary metaEmpty =
      .ok { is_valid := true, error_count := 0, errors := [],
            is_high_confidence := false, is_low_confidence := true,
            has_required_fields := false } := by
  refine ⟨?_, ?_, ?_⟩ <;> rfl

/-! ## Document classifier (src/metadata/classifier.py) -/

/-- ClassificationResult: after parsing, complexity and document_type are
honest strings (recovered to defaults if needed); requires_deep_analysis,
confidence and reasoning are carried through as dynamic values. -/
structure ClassificationResult where
  complexity : String
  document_type : String
  requires_deep_analysis : JValue
  confidence : JValue
  reasoning : JValue
  raw_response : PyDict

/-- Exceptions escaping DocumentClassifier._parse_classification: the
ValueError listing the missing required fields, or the TypeError raised by
the numeric range comparison on a non-numeric confidence. -/
inductive ParseFailure where
  | missingFields (missing : List String)
  | typeErr

def requiredClassificationFields : List String :=
  [kComplexity, kDocumentType, kRequiresDeepAnalysis, kConfidence]

/-- Enum recovery for complexity: an invalid or non-string value is
replaced by structured. -/
def recoverComplexity (x : JValue) : String :=
  match x with
  | .str s => if s ∈ COMPLEXITY_LEVELS then s else "structured"
  | _ => "structured"

/-- Enum recovery for document_type: an invalid or non-string value is
replaced by Other. -/
def recoverDocumentType (x : JValue) : String :=
  match x with
  | .str s => if s ∈ DOCUMENT_TYPES then s else "Other"
  | _ => "Other"

/-- DocumentClassifier._parse_classification: required-field check, enum
recovery to structured/Other, confidence range check with clamping. -/
def parseClassification (resp : PyDict) : Except ParseFailure ClassificationResult :=
  let missing := requiredClassificationFields.filter (fun f => (resp f).isNone)
  if !missing.isEmpty then .error (.missingFields missing)
  else
    let complexity0 := (resp kComplexity).getD .null
    let documentType0 := (resp kDocumentType).getD .null
    let requiresDeep := (resp kRequiresDeepAnalysis).getD .null
    let confidence0 := (resp kConfidence).getD .null
    let reasoning := (resp kReasoning).getD (.str "No reasoning provided")
    let complexity := recoverComplexity complexity0
    let documentType := recoverDocumentType documentType0
    match pyNum confidence0 with
    | none => .error .typeErr
    | some q =>
        let confidence :=
          if 0 ≤ q ∧ q ≤ 1 then confidence0 else .num (max 0 (min 1 q))
        .ok { complexity := complexity, document_type := documentType,
              requires_deep_analysis := requiresDeep, confidence := confidence,
              reasoning := reasoning, raw_response := resp }

/-- DocumentClassifier.get_extraction_strategy. -/
def getExtractionStrategy (c : ClassificationResult) : String :=
  if c.complexity = "simple" then "fast"
  else if c.complexity = "structured" then "template"
  else "deep"

/-- DocumentClassifier.should_extract_chunk_metadata, as the truthiness of
requires_deep_analysis or complexity == complex. -/
def shouldExtractChunkMetadataFlag (c : ClassificationResult) : Bool :=
  jTruthy c.requires_deep_analysis || (c.complexity = "complex")

theorem parseClassification_ok (resp : PyDict) (q : ℚ)
    (hmiss : requiredClassificationFields.filter (fun f => (resp f).isNone) = [])
    (hq : pyNum ((resp kConfidence).getD .null) = some q) :
    parseClassification resp = .ok
      { complexity := recoverComplexity ((resp kComplexity).getD .null),
        document_type := recoverDocumentType ((resp kDocumentType).getD .null),
        requires_deep_analysis := (resp kRequiresDeepAnalysis).getD .null,
        confidence := if 0 ≤ q ∧ q ≤ 1 then (resp kConfidence).getD .null
          else .num (max 0 (min 1 q)),
        reasoning := (resp kReasoning).getD (.str "No reasoning provided"),
        raw_response := resp } := by
  unfold parseClassification
  rw [hmiss]
  dsimp only
  rw [hq]
  rfl

theorem parseClassification_typeErr (resp : PyDict)
    (hmiss : requiredClassificationFields.filter (fun f => (resp f).isNone) = [])
    (hq : pyNum ((resp kConfidence).getD .null) = none) :
    parseClassification resp = .error .typeErr := by
  unfold parseClassification
  rw [hmiss]
  dsimp only
  rw [hq]
  rfl

theorem parseClassification_missing (resp : PyDict)
    (hne : requiredClassificationFields.filter (fun f => (resp f).isNone) ≠ []) :
    parseClassification resp = .error (.missingFields
      (requiredClassificationFields.filter (fun f => (resp f).isNone))) := by
  unfold parseClassification
  rw [if_pos (by simpa [List.isEmpty_iff] using hne)]

theorem complexityRecovery_mem (x : JValue) :
    recoverComplexity x ∈ COMPLEXITY_LEVELS := by
  cases x <;> try (show "structured" ∈ COMPLEXITY_LEVELS; decide)
  case str s =>
    by_cases h : s ∈ COMPLEXITY_LEVELS
    · simp [recoverComplexity, h]
    · simp [recoverComplexity, h]
      decide

theorem complexityRecovery_default (x : JValue)
    (h : jvInStrList x COMPLEXITY_LEVELS = false) :
    recoverComplexity x = "structured" := by
  cases x <;> try rfl
  case str s =>
    simp only [jvInStrList, decide_eq_false_iff_not] at h
    simp [recoverComplexity, h]

theorem documentTypeRecovery_mem (x : JValue) :
    recoverDocumentType x ∈ DOCUMENT_TYPES := by
  cases x <;> try (show "Other" ∈ DOCUMENT_TYPES; decide)
  case str s =>
    by_cases h : s ∈ DOCUMENT_TYPES
    · simp [recoverDocumentType, h]
    · simp [recoverDocumentType, h]
      decide

theorem documentTypeRecovery_default (x : JValue)
    (h : jvInStrList x DOCUMENT_TYPES = false) :
    recoverDocumentType x = "Other" := by
  cases x <;> try rfl
  case str s =>
    simp only [jvInStrList, decide_eq_false_iff_not] at h
    simp [recoverDocumentType, h]

/-- C6 (amended): parsing with any required field absent fails listing
exactly the missing fields; with all fields present and a numeric (number
or bool) confidence it never fails, substituting structured/Other for
invalid enum values and returning a confidence whose numeric value lies in
the unit interval; with a non-numeric confidence it raises a TypeError
instead of clamping. -/
theorem c6_parse_classification (resp : PyDict) :
    (requiredClassificationFields.filter (fun f => (resp f).isNone) ≠ [] →
      parseClassification resp = .error (.missingFields
        (requiredClassificationFields.filter (fun f => (resp f).isNone)))) ∧
    (requiredClassificationFields.filter (fun f => (resp f).isNone) = [] →
      (∀ q, pyNum ((resp kConfidence).getD .null) = some q →
        ∃ r, parseClassification resp = .ok r ∧
          r.complexity ∈ COMPLEXITY_LEVELS ∧
          (jvInStrList ((resp kComplexity).getD .null) COMPLEXITY_LEVELS = false →
            r.complexity = "structured") ∧
          r.document_type ∈ DOCUMENT_TYPES ∧
          (jvInStrList ((resp kDocumentType).getD .null) DOCUMENT_TYPES = false →
            r.document_type = "Other") ∧
          (∃ q2, pyNum r.confidence = some q2 ∧ 0 ≤ q2 ∧ q2 ≤ 1)) ∧
      (pyNum ((resp kConfidence).getD .null) = none →
        parseClassification resp = .error .typeErr)) := by
  refine ⟨fun hne => parseClassification_missing resp hne, fun hmiss =>
    ⟨?_, fun hn => parseClassification_typeErr resp hmiss hn⟩⟩
  intro q hq
  refine ⟨_, parseClassification_ok resp q hmiss hq, ?_, ?_, ?_, ?_, ?_⟩
  · exact complexityRecovery_mem _
  · exact complexityRecovery_default _
  · exact documentTypeRecovery_mem _
  · exact documentTypeRecovery_default _
  · by_cases hr : 0 ≤ q ∧ q ≤ 1
    · refine ⟨q, ?_, hr.1, hr.2⟩
      show pyNum (if 0 ≤ q ∧ q ≤ 1 then (resp kConfidence).getD .null
        else .num (max 0 (min 1 q))) = some q
      rw [if_pos hr]
      exact hq
    · refine ⟨max 0 (min 1 q), ?_, le_max_left 0 _, ?_⟩
      · show pyNum (if 0 ≤ q ∧ q ≤ 1 then (resp kConfidence).getD .null
          else .num (max 0 (min 1 q))) = some (max 0 (min 1 q))
        rw [if_neg hr]
        rfl
      · exact max_le (by norm_num) (min_le_left 1 q)

/-- Concrete classifier response whose four required fields are present but
whose confidence is the string high. -/
def c6resp : PyDict := metaOfList
  [(kComplexity, .str "simple"), (kDocumentType, .str "HR Policy"),
   (kRequiresDeepAnalysis, .bool true), (kConfidence, .str "high")]

/-- C6 counterexample: on a response with all four required fields present
but a non-numeric confidence, _parse_classification raises a TypeError from
the range comparison, refuting the claim that it never fails once the
required fields are present. -/
theorem c6_counterexample :
    requiredClassificationFields.all (fun f => (c6resp f).isSome) = true ∧
    parseClassification c6resp = .error ParseFailure.typeErr :=
  ⟨by rfl, by rfl⟩

/-- Concrete classifier response with an invalid complexity and an
out-of-range numeric confidence. -/
def c6wresp : PyDict := metaOfList
  [(kComplexity, .str "weird"), (kDocumentType, .str "HR Policy"),
   (kRequiresDeepAnalysis, .bool true), (kConfidence, .num (3/2))]

/-- Witness for the amended C6 theorem at a concrete response. -/
theorem c6_parse_classification_witness :
    requiredClassificationFields.filter (fun f => (c6wresp f).isNone) = [] ∧
    pyNum ((c6wresp kConfidence).getD .null) = some (3/2) ∧
    (∃ r, parseClassification c6wresp = .ok r ∧
      r.complexity ∈ COMPLEXITY_LEVELS ∧
      (jvInStrList ((c6wresp kComplexity).getD .null) COMPLEXITY_LEVELS = false →
        r.complexity = "structured") ∧
      r.document_type ∈ DOCUMENT_TYPES ∧
      (jvInStrList ((c6wresp kDocumentType).getD .null) DOCUMENT_TYPES = false →
        r.document_type = "Other") ∧
      (∃ q2, pyNum r.confidence = some q2 ∧ 0 ≤ q2 ∧ q2 ≤ 1)) :=
  ⟨by rfl, by rfl,
    ((c6_parse_classification c6wresp).2 (by rfl)).1 (3/2) (by rfl)⟩

/-! ## Document metadata extractor post-processing
(src/metadata/doc_extractor.py, _post_process_metadata) -/

/-- Forcing document_type to equal the classification document_type: set it
when absent, keep when equal, overwrite (with a logged warning) when
different. -/
def forceDocumentType (m : PyDict) (c : ClassificationResult) : PyDict :=
  match m kDocumentType with
  | none => metaSet m kDocumentType (.str c.document_type)
  | some v =>
      if jvEqStr v c.document_type then m
      else metaSet m kDocumentType (.str c.document_type)

/-- Scalar-to-list coercion of one field (topics, intended_audience). -/
def coerceArrField (m : PyDict) (f : String) : PyDict :=
  match m f with
  | some (.arr _) => m
  | some v => metaSet m f (.arr [v])
  | none => m

/-- Value dropped by the cleanup comprehension: None, the empty string or
the empty list. -/
def jvIsBad (v : JValue) : Bool :=
  jvIsNull v || jvEqStr v "" || jvIsEmptyArr v

/-- Pointwise effect of the cleanup dict comprehension. -/
def stripBad : Option JValue → Option JValue
  | some v => if jvIsBad v then none else some v
  | none => none

/-- One iteration of the defaults loop: inject the default when the field
is absent. -/
def injectDefault (m : PyDict) (f : String) (d : JValue) : PyDict :=
  match m f with
  | none => metaSet m f d
  | some _ => m

/-- DocumentMetadataExtractor._post_process_metadata. -/
def postProcessMetadata (m : PyDict) (c : ClassificationResult) : PyDict :=
  let m1 := forceDocumentType m c
  let m2 := metaSet m1 kComplexity (.str c.complexity)
  let m3 := metaSet m2 kRequiresDeepAnalysis c.requires_deep_analysis
  let m4 := coerceArrField m3 kTopics
  let m5 := coerceArrField m4 kIntendedAudience
  let m6 : PyDict := fun k => stripBad (m5 k)
  let m7 := injectDefault m6 kRequiresAcknowledgment (.bool false)
  let m8 := injectDefault m7 kComplianceRelated (.bool false)
  injectDefault m8 kGeographicScope (.arr [.str "global"])

/-- Value of a possibly-present field after scalar-to-list coercion. -/
def coerceToArr : Option JValue → Option JValue
  | some (.arr l) => some (.arr l)
  | some v => some (.arr [v])
  | none => none

/-- Value of a possibly-absent field after default injection. -/
def defaultIfNone (x : Option JValue) (d : JValue) : Option JValue :=
  match x with
  | none => some d
  | some v => some v

/-- The state of the metadata after the forced fields and list coercions,
before cleanup, described key by key. -/
def preClean (m : PyDict) (c : ClassificationResult) (k : String) : Option JValue :=
  if k = kDocumentType then some (.str c.document_type)
  else if k = kComplexity then some (.str c.complexity)
  else if k = kRequiresDeepAnalysis then some c.requires_deep_analysis
  else if k = kTopics then coerceToArr (m kTopics)
  else if k = kIntendedAudience then coerceToArr (m kIntendedAudience)
  else m k

theorem jvEqStr_true {v : JValue} {s : String} (h : jvEqStr v s = true) :
    v = .str s := by
  cases v <;> simp [jvEqStr] at h
  subst h
  rfl

theorem forceDocumentType_apply (m : PyDict) (c : ClassificationResult)
    (k : String) :
    forceDocumentType m c k =
      if k = kDocumentType then some (.str c.document_type) else m k := by
  unfold forceDocumentType
  by_cases hk : k = kDocumentType
  · rcases hm : m kDocumentType with _ | v
    · simp [hm, hk, metaSet_apply]
    · by_cases he : jvEqStr v c.document_type
      · change (if jvEqStr v c.document_type = true then m
          else metaSet m kDocumentType (JValue.str c.document_type)) k = _
        rw [if_pos he, if_pos hk, hk, hm, jvEqStr_true he]
      · simp [hm, hk, he, metaSet_apply]
  · rcases hm : m kDocumentType with _ | v
    · simp [hm, hk, metaSet_apply]
    · by_cases he : jvEqStr v c.document_type <;>
        simp [hm, hk, he, metaSet_apply]

theorem coerceArrField_apply (m : PyDict) (f k : String) :
    coerceArrField m f k = if k = f then coerceToArr (m f) else m k := by
  unfold coerceArrField coerceToArr
  by_cases hk : k = f
  · rcases hm : m f with _ | v
    · simp [hm, hk]
    · cases v <;> simp [hm, hk, metaSet_apply]
  · rcases hm : m f with _ | v
    · simp [hm, hk]
    · cases v <;> simp [hm, hk, metaSet_apply]

theorem injectDefault_apply (m : PyDict) (f : String) (d : JValue)
    (k : String) :
    injectDefault m f d k = if k = f then defaultIfNone (m f) d else m k := by
  unfold injectDefault defaultIfNone
  by_cases hk : k = f
  · rcases hm : m f with _ | v <;> simp [hm, hk, metaSet_apply]
  · rcases hm : m f with _ | v <;> simp [hm, hk, metaSet_apply]

/-- The whole post-processing, described key by key. -/
theorem postProcessMetadata_apply (m : PyDict) (c : ClassificationResult)
    (k : String) :
    postProcessMetadata m c k =
      if k = kRequiresAcknowledgment then
        defaultIfNone (stripBad (preClean m c k)) (.bool false)
      else if k = kComplianceRelated then
        defaultIfNone (stripBad (preClean m c k)) (.bool false)
      else if k = kGeographicScope then
        defaultIfNone (stripBad (preClean m c k)) (.arr [.str "global"])
      else stripBad (preClean m c k) := by
  unfold postProcessMetadata preClean
  simp only [forceDocumentType_apply, coerceArrField_apply,
    injectDefault_apply, metaSet_apply]
  by_cases h1 : k = kRequiresAcknowledgment
  · simp [h1, kDocumentType, kComplexity, kRequiresDeepAnalysis, kTopics,
      kIntendedAudience, kRequiresAcknowledgment, kComplianceRelated,
      kGeographicScope]
  by_cases h2 : k = kComplianceRelated
  · simp [h1, h2, kDocumentType, kComplexity, kRequiresDeepAnalysis, kTopics,
      kIntendedAudience, kRequiresAcknowledgment, kComplianceRelated,
      kGeographicScope]
  by_cases h3 : k = kGeographicScope
  · simp [h1, h2, h3, kDocumentType, kComplexity, kRequiresDeepAnalysis,
      kTopics, kIntendedAudience, kRequiresAcknowledgment,
      kComplianceRelated, kGeographicScope]
  by_cases h4 : k = kDocumentType
  · simp [h1, h2, h3, h4, kDocumentType, kComplexity, kRequiresDeepAnalysis,
      kTopics, kIntendedAudience, kRequiresAcknowledgment,
      kComplianceRelated, kGeographicScope]
  by_cases h5 : k = kComplexity
  · simp [h1, h2, h3, h4, h5, kDocumentType, kComplexity,
      kRequiresDeepAnalysis, kTopics, kIntendedAudience,
      kRequiresAcknowledgment, kComplianceRelated, kGeographicScope]
  by_cases h6 : k = kRequiresDeepAnalysis
  · simp [h1, h2, h3, h4, h5, h6, kDocumentType, kComplexity,
      kRequiresDeepAnalysis, kTopics, kIntendedAudience,
      kRequiresAcknowledgment, kComplianceRelated, kGeographicScope]
  by_cases h7 : k = kTopics
  · simp [h1, h2, h3, h4, h5, h6, h7, kDocumentType, kComplexity,
      kRequiresDeepAnalysis, kTopics, kIntendedAudience,
      kRequiresAcknowledgment, kComplianceRelated, kGeographicScope]
  by_cases h8 : k = kIntendedAudience
  · simp [h1, h2, h3, h4, h5, h6, h7, h8, kDocumentType, kComplexity,
      kRequiresDeepAnalysis, kTopics, kIntendedAudience,
      kRequiresAcknowledgment, kComplianceRelated, kGeographicScope]
  · simp [h1, h2, h3, h4, h5, h6, h7, h8]

theorem stripBad_good {x : Option JValue} {v : JValue}
    (h : stripBad x = some v) : jvIsBad v = false := by
  rcases x with _ | w
  · simp [stripBad] at h
  · by_cases hb : jvIsBad w
    · simp [stripBad, hb] at h
    · simp [stripBad, hb] at h
      subst h
      simpa using hb

theorem jvIsBad_false_spec {v : JValue} (h : jvIsBad v = false) :
    v ≠ JValue.null ∧ v ≠ JValue.str "" ∧ v ≠ JValue.arr [] := by
  cases v <;>
    simp_all [jvIsBad, jvIsNull, jvEqStr, jvIsEmptyArr]

theorem defaultIfNone_stripBad_good {x : Option JValue} {d v : JValue}
    (hd : jvIsBad d = false) (h : defaultIfNone (stripBad x) d = some v) :
    jvIsBad v = false := by
  rcases hx : stripBad x with _ | w
  · rw [hx] at h
    simp only [defaultIfNone, Option.some.injEq] at h
    subst h
    exact hd
  · rw [hx] at h
    simp only [defaultIfNone, Option.some.injEq] at h
    subst h
    exact stripBad_good hx

theorem coerceToArr_some (w : JValue) :
    ∃ l, coerceToArr (some w) = some (JValue.arr l) := by
  cases w
  case arr l => exact ⟨l, rfl⟩
  case null => exact ⟨[JValue.null], rfl⟩
  case bool b => exact ⟨[JValue.bool b], rfl⟩
  case num q => exact ⟨[JValue.num q], rfl⟩
  case str s => exact ⟨[JValue.str s], rfl⟩
  case obj l => exact ⟨[JValue.obj l], rfl⟩

theorem stripBad_coerce_arr {x : Option JValue} {v : JValue}
    (h : stripBad (coerceToArr x) = some v) : ∃ l, v = JValue.arr l := by
  rcases x with _ | w
  · simp [coerceToArr, stripBad] at h
  · obtain ⟨l, hl⟩ := coerceToArr_some w
    rw [hl] at h
    by_cases hb : jvIsBad (JValue.arr l)
    · simp [stripBad, hb] at h
    · simp [stripBad, hb] at h
      exact ⟨l, h.symm⟩

/-- C5: the post-processed extractor result has document_type forced to the
classification value; topics and intended_audience, if present, are lists;
no key maps to None, the empty string or the empty list; and the three
defaults requires_acknowledgment, compliance_related and geographic_scope
are injected when the model omitted them. -/
theorem c5_post_process (m : PyDict) (c : ClassificationResult)
    (hdt : c.document_type ∈ DOCUMENT_TYPES) :
    postProcessMetadata m c kDocumentType = some (.str c.document_type) ∧
    (∀ v, postProcessMetadata m c kTopics = some v →
      ∃ l, v = JValue.arr l) ∧
    (∀ v, postProcessMetadata m c kIntendedAudience = some v →
      ∃ l, v = JValue.arr l) ∧
    (∀ k v, postProcessMetadata m c k = some v →
      v ≠ JValue.null ∧ v ≠ JValue.str "" ∧ v ≠ JValue.arr []) ∧
    (m kRequiresAcknowledgment = none →
      postProcessMetadata m c kRequiresAcknowledgment = some (.bool false)) ∧
    (m kComplianceRelated = none →
      postProcessMetadata m c kComplianceRelated = some (.bool false)) ∧
    (m kGeographicScope = none →
      postProcessMetadata m c kGeographicScope =
        some (.arr [.str "global"])) := by
  have hne : c.document_type ≠ "" := by
    intro h0
    rw [h0] at hdt
    exact absurd hdt (by decide)
  refine ⟨?_, ?_, ?_, ?_, ?_, ?_, ?_⟩
  · rw [postProcessMetadata_apply]
    simp [preClean, kDocumentType, kRequiresAcknowledgment,
      kComplianceRelated, kGeographicScope, kComplexity,
      kRequiresDeepAnalysis, kTopics, kIntendedAudience, stripBad, jvIsBad,
      jvIsNull, jvEqStr, jvIsEmptyArr, hne]
  · intro v hv
    rw [postProcessMetadata_apply] at hv
    simp only [preClean, kDocumentType, kRequiresAcknowledgment,
      kComplianceRelated, kGeographicScope, kComplexity,
      kRequiresDeepAnalysis, kTopics, kIntendedAudience,
      String.reduceEq, if_false, if_true, reduceIte] at hv
    exact stripBad_coerce_arr hv
  · intro v hv
    rw [postProcessMetadata_apply] at hv
    simp only [preClean, kDocumentType, kRequiresAcknowledgment,
      kComplianceRelated, kGeographicScope, kComplexity,
      kRequiresDeepAnalysis, kTopics, kIntendedAudience,
      String.reduceEq, if_false, if_true, reduceIte] at hv
    exact stripBad_coerce_arr hv
  · intro k v hv
    rw [postProcessMetadata_apply] at hv
    by_cases h1 : k = kRequiresAcknowledgment
    · rw [if_pos h1] at hv
      exact jvIsBad_false_spec (defaultIfNone_stripBad_good (by decide) hv)
    rw [if_neg h1] at hv
    by_cases h2 : k = kComplianceRelated
    · rw [if_pos h2] at hv
      exact jvIsBad_false_spec (defaultIfNone_stripBad_good (by decide) hv)
    rw [if_neg h2] at hv
    by_cases h3 : k = kGeographicScope
    · rw [if_pos h3] at hv
      exact jvIsBad_false_spec (defaultIfNone_stripBad_good (by decide) hv)
    rw [if_neg h3] at hv
    exact jvIsBad_false_spec (stripBad_good hv)
  · intro hm0
    rw [postProcessMetadata_apply]
    simp only [kRequiresAcknowledgment] at hm0
    simp [preClean, kDocumentType, kRequiresAcknowledgment,
      kComplianceRelated, kGeographicScope, kComplexity,
      kRequiresDeepAnalysis, kTopics, kIntendedAudience, hm0, stripBad,
      defaultIfNone]
  · intro hm0
    rw [postProcessMetadata_apply]
    simp only [kComplianceRelated] at hm0
    simp [preClean, kDocumentType, kRequiresAcknowledgment,
      kComplianceRelated, kGeographicScope, kComplexity,
      kRequiresDeepAnalysis, kTopics, kIntendedAudience, hm0, stripBad,
      defaultIfNone]
  · intro hm0
    rw [postProcessMetadata_apply]
    simp only [kGeographicScope] at hm0
    simp [preClean, kDocumentType, kRequiresAcknowledgment,
      kComplianceRelated, kGeographicScope, kComplexity,
      kRequiresDeepAnalysis, kTopics, kIntendedAudience, hm0, stripBad,
      defaultIfNone]

/-- Concrete classification used to instantiate the C5 theorem. -/
def c5class : ClassificationResult :=
  { complexity := "structured", document_type := "HR Policy",
    requires_deep_analysis := .bool false, confidence := .num (9/10),
    reasoning := .str "preview", raw_response := metaEmpty }

/-- Witness for the C5 theorem at a concrete metadata mapping and
classification. -/
theorem c5_post_process_witness :
    c5class.document_type ∈ DOCUMENT_TYPES ∧
    (postProcessMetadata metaEmpty c5class kDocumentType =
        some (.str c5class.document_type) ∧
      (∀ v, postProcessMetadata metaEmpty c5class kTopics = some v →
        ∃ l, v = JValue.arr l) ∧
      (∀ v, postProcessMetadata metaEmpty c5class kIntendedAudience = some v →
        ∃ l, v = JValue.arr l) ∧
      (∀ k v, postProcessMetadata metaEmpty c5class k = some v →
        v ≠ JValue.null ∧ v ≠ JValue.str "" ∧ v ≠ JValue.arr []) ∧
      (metaEmpty kRequiresAcknowledgment = none →
        postProcessMetadata metaEmpty c5class kRequiresAcknowledgment =
          some (.bool false)) ∧
      (metaEmpty kComplianceRelated = none →
        postProcessMetadata metaEmpty c5class kComplianceRelated =
          some (.bool false)) ∧
      (metaEmpty kGeographicScope = none →
        postProcessMetadata metaEmpty c5class kGeographicScope =
          some (.arr [.str "global"]))) :=
  ⟨by decide, c5_post_process metaEmpty c5class (by decide)⟩

/-! ## Chunker (src/ingestion/chunker.py)

The tokenizer is an external collaborator: the embedding abstracts over the
token list of the document (tiktoken encode of the text) and over the
decode function. The two token-index fields of a chunk record the loop
variables start_idx and len(chunk_tokens), which the Python chunk dict does
not store; they are what token-range statements are about. -/

structure DocumentChunk where
  text : String
  chunk_number : ℕ
  start_char : ℕ
  end_char : ℕ
  metadata : PyDict
  tokenStart : ℕ
  tokenCount : ℕ

/-- The chunk built by one loop iteration at position start with number
num: slice tokens[start : start + size], decode it, and derive character
offsets by decoding the prefix. -/
def mkChunk (decode : List ℕ → String) (md : PyDict) (tokens : List ℕ)
    (size start num : ℕ) : DocumentChunk :=
  let chunkTokens := (tokens.drop start).take size
  let chunkText := decode chunkTokens
  let startChar := (decode (tokens.take start)).length
  { text := chunkText, chunk_number := num, start_char := startChar,
    end_char := startChar + chunkText.length, metadata := md,
    tokenStart := start, tokenCount := chunkTokens.length }

/-- The while loop of chunk_document: emit a chunk and advance the start
index by size - overlap while it is inside the token list. -/
def chunkLoop (decode : List ℕ → String) (md : PyDict) (tokens : List ℕ)
    (size overlap : ℕ) (h : overlap < size) (start num : ℕ) :
    List DocumentChunk :=
  if h1 : start < tokens.length then
    mkChunk decode md tokens size start num ::
      chunkLoop decode md tokens size overlap h (start + (size - overlap))
        (num + 1)
  else []
termination_by tokens.length - start
decreasing_by simp_wf; omega

/-- chunk_document, after the size/overlap arguments have been resolved
from the call site or the settings. -/
def chunkDocument (decode : List ℕ → String) (md : PyDict)
    (tokens : List ℕ) (size overlap : ℕ) (h : overlap < size) :
    List DocumentChunk :=
  chunkLoop decode md tokens size overlap h 0 0

/-- Size of the intersection of the token ranges of two chunks. -/
def chunkRangeOverlap (c1 c2 : DocumentChunk) : ℕ :=
  min (c1.tokenStart + c1.tokenCount) (c2.tokenStart + c2.tokenCount) -
    max c1.tokenStart c2.tokenStart

theorem ceilDiv_step {m d : ℕ} (hd : 0 < d) (hm : 0 < m) :
    (m + d - 1) / d = (m - d + d - 1) / d + 1 := by
  by_cases hc : m ≤ d
  · have h1 : m - d = 0 := by omega
    rw [h1]
    have h2 : (0 + d - 1) / d = 0 := Nat.div_eq_of_lt (by omega)
    rw [h2]
    exact Nat.div_eq_of_lt_le (by omega) (by omega)
  · have h2 : m + d - 1 = (m - 1) + d := by omega
    rw [h2, Nat.add_div_right _ hd, show m - d + d - 1 = m - 1 by omega]

theorem chunkLoop_length (decode : List ℕ → String) (md : PyDict)
    (tokens : List ℕ) (size overlap : ℕ) (h : overlap < size) :
    ∀ fuel start num, tokens.length - start ≤ fuel →
      (chunkLoop decode md tokens size overlap h start num).length =
        (tokens.length - start + (size - overlap) - 1) / (size - overlap) := by
  intro fuel
  induction fuel with
  | zero =>
    intro start num hf
    rw [chunkLoop, dif_neg (by omega)]
    have h0 : tokens.length - start = 0 := by omega
    rw [h0]
    exact (Nat.div_eq_of_lt (by omega)).symm
  | succ f ih =>
    intro start num hf
    by_cases h1 : start < tokens.length
    · rw [chunkLoop, dif_pos h1, List.length_cons,
        ih (start + (size - overlap)) (num + 1) (by omega)]
      have hstep : tokens.length - (start + (size - overlap)) =
          (tokens.length - start) - (size - overlap) := by omega
      rw [hstep]
      exact (ceilDiv_step (by omega) (by omega)).symm
    · rw [chunkLoop, dif_neg h1]
      have h0 : tokens.length - start = 0 := by omega
      rw [h0]
      exact (Nat.div_eq_of_lt (by omega)).symm

theorem chunkLoop_getElem? (decode : List ℕ → String) (md : PyDict)
    (tokens : List ℕ) (size overlap : ℕ) (h : overlap < size) :
    ∀ fuel start num i, tokens.length - start ≤ fuel →
      (chunkLoop decode md tokens size overlap h start num)[i]? =
        if start + i * (size - overlap) < tokens.length then
          some (mkChunk decode md tokens size
            (start + i * (size - overlap)) (num + i))
        else none := by
  intro fuel
  induction fuel with
  | zero =>
    intro start num i hf
    rw [chunkLoop, dif_neg (by omega), if_neg (by omega)]
    exact List.getElem?_nil
  | succ f ih =>
    intro start num i hf
    by_cases h1 : start < tokens.length
    · rw [chunkLoop, dif_pos h1]
      cases i with
      | zero =>
        rw [List.getElem?_cons_zero, if_pos (by omega)]
        simp
      | succ j =>
        rw [List.getElem?_cons_succ,
          ih (start + (size - overlap)) (num + 1) j (by omega)]
        have e1 : start + (size - overlap) + j * (size - overlap) =
            start + (j + 1) * (size - overlap) := by ring
        have e2 : num + 1 + j = num + (j + 1) := by omega
        rw [e1, e2]
    · rw [chunkLoop, dif_neg h1, if_neg (by omega)]
      exact List.getElem?_nil

theorem chunkDocument_exists_iff (decode : List ℕ → String) (md : PyDict)
    (tokens : List ℕ) (size overlap : ℕ) (h : overlap < size) (i : ℕ) :
    i < (chunkDocument decode md tokens size overlap h).length ↔
      i * (size - overlap) < tokens.length := by
  have h1 : (chunkDocument decode md tokens size overlap h)[i]? =
      if 0 + i * (size - overlap) < tokens.length then
        some (mkChunk decode md tokens size (0 + i * (size - overlap)) (0 + i))
      else none :=
    chunkLoop_getElem? decode md tokens size overlap h tokens.length 0 0 i
      (by omega)
  simp only [Nat.zero_add] at h1
  constructor
  · intro hi
    by_contra hc
    rw [if_neg hc] at h1
    have h2 := List.getElem?_eq_none_iff.mp h1
    omega
  · intro hc
    by_contra hi
    rw [if_pos hc] at h1
    have h2 : (chunkDocument decode md tokens size overlap h)[i]? = none :=
      List.getElem?_eq_none_iff.mpr (by omega)
    rw [h1] at h2
    exact Option.noConfusion h2

theorem chunkDocument_get (decode : List ℕ → String) (md : PyDict)
    (tokens : List ℕ) (size overlap : ℕ) (h : overlap < size) (i : ℕ)
    (hi : i < (chunkDocument decode md tokens size overlap h).length) :
    (chunkDocument decode md tokens size overlap h).get ⟨i, hi⟩ =
      mkChunk decode md tokens size (i * (size - overlap)) i := by
  have h1 : (chunkDocument decode md tokens size overlap h)[i]? =
      if 0 + i * (size - overlap) < tokens.length then
        some (mkChunk decode md tokens size (0 + i * (size - overlap)) (0 + i))
      else none :=
    chunkLoop_getElem? decode md tokens size overlap h tokens.length 0 0 i
      (by omega)
  simp only [Nat.zero_add] at h1
  have hc : i * (size - overlap) < tokens.length :=
    (chunkDocument_exists_iff decode md tokens size overlap h i).mp hi
  rw [if_pos hc] at h1
  have h2 : (chunkDocument decode md tokens size overlap h)[i]? =
      some ((chunkDocument decode md tokens size overlap h).get ⟨i, hi⟩) := by
    simp [List.getElem?_eq_getElem hi]
  rw [h1] at h2
  exact (Option.some.inj h2).symm

theorem mkChunk_tokenCount (decode : List ℕ → String) (md : PyDict)
    (tokens : List ℕ) (size start num : ℕ) :
    (mkChunk decode md tokens size start num).tokenCount =
      min size (tokens.length - start) := by
  simp [mkChunk, List.length_take, List.length_drop]

theorem mkChunk_tokenStart (decode : List ℕ → String) (md : PyDict)
    (tokens : List ℕ) (size start num : ℕ) :
    (mkChunk decode md tokens size start num).tokenStart = start := rfl

theorem mkChunk_chunkNumber (decode : List ℕ → String) (md : PyDict)
    (tokens : List ℕ) (size start num : ℕ) :
    (mkChunk decode md tokens size start num).chunk_number = num := rfl

/-- C3 (amended): chunk_number equals the index, strictly increasing from 0
with no gaps; the token ranges of consecutive chunks i and i+1 overlap by
min overlap (tokens - start of chunk i+1), which equals overlap exactly
except when chunk i is truncated by the end of the document. -/
theorem c3_chunk_overlap_amended (decode : List ℕ → String) (md : PyDict)
    (tokens : List ℕ) (size overlap : ℕ) (h : overlap < size) :
    (∀ i (hi : i < (chunkDocument decode md tokens size overlap h).length),
      ((chunkDocument decode md tokens size overlap h).get ⟨i, hi⟩).chunk_number
        = i) ∧
    (∀ i (hi : i + 1 < (chunkDocument decode md tokens size overlap h).length),
      chunkRangeOverlap
        ((chunkDocument decode md tokens size overlap h).get
          ⟨i, Nat.lt_of_succ_lt hi⟩)
        ((chunkDocument decode md tokens size overlap h).get ⟨i + 1, hi⟩) =
      min overlap (tokens.length - (i + 1) * (size - overlap))) := by
  constructor
  · intro i hi
    rw [chunkDocument_get decode md tokens size overlap h i hi]
    rfl
  · intro i hi
    rw [chunkDocument_get decode md tokens size overlap h i
        (Nat.lt_of_succ_lt hi),
      chunkDocument_get decode md tokens size overlap h (i + 1) hi]
    have h1 : i * (size - overlap) < tokens.length :=
      (chunkDocument_exists_iff decode md tokens size overlap h i).mp
        (Nat.lt_of_succ_lt hi)
    have h2 : (i + 1) * (size - overlap) < tokens.length :=
      (chunkDocument_exists_iff decode md tokens size overlap h (i + 1)).mp hi
    unfold chunkRangeOverlap
    rw [mkChunk_tokenStart, mkChunk_tokenStart, mkChunk_tokenCount,
      mkChunk_tokenCount]
    have e : (i + 1) * (size - overlap) =
        i * (size - overlap) + (size - overlap) := by ring
    rw [e] at h2 ⊢
    generalize i * (size - overlap) = a at h1 h2 ⊢
    omega

/-- The C3 claim as frozen, at one input: all consecutive pairs that do not
involve the final chunk overlap by exactly the configured overlap. -/
def c3ClaimStatement (decode : List ℕ → String) (md : PyDict)
    (tokens : List ℕ) (size overlap : ℕ) (h : overlap < size) : Prop :=
  ∀ i (hi : i + 1 < (chunkDocument decode md tokens size overlap h).length),
    i + 1 ≠ (chunkDocument decode md tokens size overlap h).length - 1 →
    chunkRangeOverlap
      ((chunkDocument decode md tokens size overlap h).get
        ⟨i, Nat.lt_of_succ_lt hi⟩)
      ((chunkDocument decode md tokens size overlap h).get ⟨i + 1, hi⟩) =
    overlap

/-- C3 counterexample: with 10 tokens, size 8 and overlap 5, the chunks
cover token ranges starting at 0, 3, 6 and 9, and the pair of chunks 1 and
2, neither of which is the final chunk, overlaps by 4 tokens instead of 5:
chunk 1 is truncated by the end of the document. -/
theorem c3_counterexample :
    ¬ c3ClaimStatement (fun _ => "") metaEmpty (List.range 10) 8 5
      (by omega) := by
  intro hcl
  have hlen : (chunkDocument (fun _ => "") metaEmpty (List.range 10) 8 5
      (by omega)).length = 4 := by
    have h0 : (chunkDocument (fun _ => "") metaEmpty (List.range 10) 8 5
        (by omega)).length =
        ((List.range 10).length - 0 + (8 - 5) - 1) / (8 - 5) :=
      chunkLoop_length (fun _ => "") metaEmpty (List.range 10) 8 5
        (by omega) (List.range 10).length 0 0 (by omega)
    rw [h0, List.length_range]
  have hi : 1 + 1 < (chunkDocument (fun _ => "") metaEmpty (List.range 10)
      8 5 (by omega)).length := by omega
  have hne : 1 + 1 ≠ (chunkDocument (fun _ => "") metaEmpty (List.range 10)
      8 5 (by omega)).length - 1 := by omega
  have hv := hcl 1 hi hne
  rw [chunkDocument_get _ _ _ _ _ _ 1 (Nat.lt_of_succ_lt hi),
    chunkDocument_get _ _ _ _ _ _ 2 hi] at hv
  unfold chunkRangeOverlap at hv
  rw [mkChunk_tokenStart, mkChunk_tokenStart, mkChunk_tokenCount,
    mkChunk_tokenCount, List.length_range] at hv
  norm_num at hv

/-- Witness for the amended C3 theorem at the same concrete input. -/
theorem c3_chunk_overlap_amended_witness :
    (5 : ℕ) < 8 ∧
    ((∀ i (hi : i < (chunkDocument (fun _ => "") metaEmpty (List.range 10)
        8 5 (by omega)).length),
      ((chunkDocument (fun _ => "") metaEmpty (List.range 10) 8 5
        (by omega)).get ⟨i, hi⟩).chunk_number = i) ∧
    (∀ i (hi : i + 1 < (chunkDocument (fun _ => "") metaEmpty
        (List.range 10) 8 5 (by omega)).length),
      chunkRangeOverlap
        ((chunkDocument (fun _ => "") metaEmpty (List.range 10) 8 5
          (by omega)).get ⟨i, Nat.lt_of_succ_lt hi⟩)
        ((chunkDocument (fun _ => "") metaEmpty (List.range 10) 8 5
          (by omega)).get ⟨i + 1, hi⟩) =
      min 5 ((List.range 10).length - (i + 1) * (8 - 5)))) :=
  ⟨by omega, c3_chunk_overlap_amended (fun _ => "") metaEmpty
    (List.range 10) 8 5 (by omega)⟩

/-! ## Settings validation (config/settings.py, Settings.validate_settings) -/

/-- The slice of the Settings object relevant to the chunking precondition;
prompts_dir_exists abstracts the filesystem check. -/
structure PySettings where
  chunk_size : ℕ
  chunk_overlap : ℕ
  prompts_dir_exists : Bool

/-- Settings.validate_settings: raises on overlap >= size, then on a
missing prompts directory. -/
def validateSettings (st : PySettings) : Except String Unit :=
  if st.chunk_size ≤ st.chunk_overlap then
    .error "chunk_overlap must be less than chunk_size"
  else if !st.prompts_dir_exists then
    .error "Prompts directory not found"
  else .ok ()

/-- C4: for overlap < size the chunking loop terminates with a finite chunk
list of exactly ceil(tokens / (size - overlap)) chunks, and the startup
settings validation rejects overlap >= size as a configuration error while
accepting overlap < size. -/
theorem c4_chunk_termination_and_config :
    (∀ (decode : List ℕ → String) (md : PyDict) (tokens : List ℕ)
      (size overlap : ℕ) (h : overlap < size),
      (chunkDocument decode md tokens size overlap h).length =
        (tokens.length + (size - overlap) - 1) / (size - overlap)) ∧
    (∀ st : PySettings, st.chunk_size ≤ st.chunk_overlap →
      validateSettings st =
        .error "chunk_overlap must be less than chunk_size") ∧
    (∀ st : PySettings, st.chunk_overlap < st.chunk_size →
      st.prompts_dir_exists = true → validateSettings st = .ok ()) := by
  refine ⟨?_, ?_, ?_⟩
  · intro decode md tokens size overlap h
    have h1 := chunkLoop_length decode md tokens size overlap h
      tokens.length 0 0 (by omega)
    rw [show tokens.length - 0 = tokens.length by omega] at h1
    exact h1
  · intro st hle
    unfold validateSettings
    rw [if_pos hle]
  · intro st hlt hdir
    unfold validateSettings
    rw [if_neg (by omega), hdir]
    rfl

/-- Witness for the C4 theorem at concrete inputs. -/
theorem c4_chunk_termination_and_config_witness :
    (chunkDocument (fun _ => "") metaEmpty (List.range 10) 8 5
      (by omega)).length = (10 + (8 - 5) - 1) / (8 - 5) ∧
    validateSettings
        { chunk_size := 500, chunk_overlap := 500, prompts_dir_exists := true }
      = .error "chunk_overlap must be less than chunk_size" ∧
    validateSettings
        { chunk_size := 500, chunk_overlap := 50, prompts_dir_exists := true }
      = .ok () :=
  ⟨by
    have := c4_chunk_termination_and_config.1 (fun _ => "") metaEmpty
      (List.range 10) 8 5 (by omega)
    simpa using this,
   c4_chunk_termination_and_config.2.1 _ (by norm_num),
   c4_chunk_termination_and_config.2.2 _ (by norm_num) rfl⟩

/-! ## Retriever (src/retrieval/retriever.py) -/

/-- Raw search results from the vector store: parallel arrays of ids,
documents, metadatas and distances. -/
structure SearchResults where
  ids : List String
  documents : List String
  metadatas : List PyDict
  distances : List ℚ

/-- Python min() of a non-empty list (0 is a dummy for the empty list, on
which Python would raise). -/
def pyListMin : List ℚ → ℚ
  | [] => 0
  | q :: t => t.foldl min q

/-- Python max() of a non-empty list. -/
def pyListMax : List ℚ → ℚ
  | [] => 0
  | q :: t => t.foldl max q

/-- A formatted result chunk of _format_results. -/
structure RChunk where
  id : String
  text : String
  metadata : PyDict
  distance : ℚ
  score : ℚ

/-- Score computation of one result: min-max normalization then clamping
into the unit interval. -/
def scoreOf (minD range dist : ℚ) : ℚ :=
  let score := if 0 < range then 1 - (dist - minD) / range else 1
  max 0 (min 1 score)

def emptyStr : String := ""

/-- Retriever._format_results: early exit on empty ids, min-max
normalization parameters from the distance list, then one chunk per index. -/
def formatResults (results : SearchResults) : List RChunk :=
  if results.ids.isEmpty then []
  else
    let distances := results.distances
    let minD := if distances.isEmpty then 0 else pyListMin distances
    let range :=
      if distances.isEmpty then 1
      else if pyListMin distances < pyListMax distances then
        pyListMax distances - pyListMin distances
      else 1
    (List.range results.ids.length).map (fun i =>
      { id := results.ids.getD i emptyStr,
        text := results.documents.getD i emptyStr,
        metadata := results.metadatas.getD i metaEmpty,
        distance := distances.getD i 0,
        score := scoreOf minD range (distances.getD i 0) })

theorem foldl_min_le_init (a : ℚ) (t : List ℚ) : t.foldl min a ≤ a := by
  induction t generalizing a with
  | nil => exact le_refl a
  | cons b t2 ih => exact le_trans (ih (min a b)) (min_le_left a b)

theorem foldl_min_le_mem (a : ℚ) (t : List ℚ) :
    ∀ x ∈ t, t.foldl min a ≤ x := by
  induction t generalizing a with
  | nil => intro x hx; exact absurd hx (List.not_mem_nil x)
  | cons b t2 ih =>
    intro x hx
    rcases List.mem_cons.mp hx with rfl | hx2
    · exact le_trans (foldl_min_le_init (min a x) t2) (min_le_right a x)
    · exact ih (min a b) x hx2

theorem foldl_min_choice (a : ℚ) (t : List ℚ) :
    t.foldl min a = a ∨ t.foldl min a ∈ t := by
  induction t generalizing a with
  | nil => exact Or.inl rfl
  | cons b t2 ih =>
    rcases ih (min a b) with h | h
    · rcases min_choice a b with hm | hm
      · exact Or.inl (by rw [List.foldl_cons, h, hm])
      · refine Or.inr (List.mem_cons.mpr (Or.inl ?_))
        rw [List.foldl_cons, h, hm]
    · exact Or.inr (List.mem_cons.mpr (Or.inr h))

theorem foldl_max_init_le (a : ℚ) (t : List ℚ) : a ≤ t.foldl max a := by
  induction t generalizing a with
  | nil => exact le_refl a
  | cons b t2 ih => exact le_trans (le_max_left a b) (ih (max a b))

theorem foldl_max_mem_le (a : ℚ) (t : List ℚ) :
    ∀ x ∈ t, x ≤ t.foldl max a := by
  induction t generalizing a with
  | nil => intro x hx; exact absurd hx (List.not_mem_nil x)
  | cons b t2 ih =>
    intro x hx
    rcases List.mem_cons.mp hx with rfl | hx2
    · exact le_trans (le_max_right a x) (foldl_max_init_le (max a x) t2)
    · exact ih (max a b) x hx2

theorem pyListMin_le {l : List ℚ} (x : ℚ) (hx : x ∈ l) : pyListMin l ≤ x := by
  match l with
  | q :: t =>
    rcases List.mem_cons.mp hx with rfl | hx2
    · exact foldl_min_le_init x t
    · exact foldl_min_le_mem q t x hx2

theorem le_pyListMax {l : List ℚ} (x : ℚ) (hx : x ∈ l) : x ≤ pyListMax l := by
  match l with
  | q :: t =>
    rcases List.mem_cons.mp hx with rfl | hx2
    · exact foldl_max_init_le x t
    · exact foldl_max_mem_le q t x hx2

theorem pyListMin_mem {l : List ℚ} (hne : l ≠ []) : pyListMin l ∈ l := by
  match l with
  | q :: t =>
    rcases foldl_min_choice q t with h | h
    · rw [pyListMin, h]
      exact List.mem_cons_self q t
    · exact List.mem_cons.mpr (Or.inr h)

theorem scoreOf_bounds (minD range dist : ℚ) :
    0 ≤ scoreOf minD range dist ∧ scoreOf minD range dist ≤ 1 := by
  unfold scoreOf
  constructor
  · exact le_max_left 0 _
  · exact max_le (by norm_num) (min_le_left 1 _)

theorem scoreOf_at_min (minD range : ℚ) : scoreOf minD range minD = 1 := by
  unfold scoreOf
  by_cases hr : 0 < range
  · rw [if_pos hr]
    simp
  · rw [if_neg hr]
    simp

theorem scoreOf_at_max {minD maxD : ℚ} (hlt : minD < maxD) :
    scoreOf minD (maxD - minD) maxD = 0 := by
  unfold scoreOf
  rw [if_pos (by linarith)]
  rw [div_self (by linarith)]
  simp

theorem list_isEmpty_false {α : Type} {l : List α} (hne : l ≠ []) :
    l.isEmpty = false := by
  cases l with
  | nil => exact absurd rfl hne
  | cons a t => rfl

theorem formatResults_length (results : SearchResults)
    (hne : results.ids ≠ []) :
    (formatResults results).length = results.ids.length := by
  unfold formatResults
  simp [list_isEmpty_false hne]

theorem formatResults_get (results : SearchResults) (hne : results.ids ≠ [])
    (i : ℕ) (hi : i < (formatResults results).length) :
    (formatResults results).get ⟨i, hi⟩ =
      { id := results.ids.getD i emptyStr,
        text := results.documents.getD i emptyStr,
        metadata := results.metadatas.getD i metaEmpty,
        distance := results.distances.getD i 0,
        score := scoreOf
          (if results.distances.isEmpty then 0
            else pyListMin results.distances)
          (if results.distances.isEmpty then 1
            else if pyListMin results.distances < pyListMax results.distances
            then pyListMax results.distances - pyListMin results.distances
            else 1)
          (results.distances.getD i 0) } := by
  have hi2 : i < results.ids.length := by
    rw [← formatResults_length results hne]
    exact hi
  have h1 : (formatResults results)[i]? = some
      { id := results.ids.getD i emptyStr,
        text := results.documents.getD i emptyStr,
        metadata := results.metadatas.getD i metaEmpty,
        distance := results.distances.getD i 0,
        score := scoreOf
          (if results.distances.isEmpty then 0
            else pyListMin results.distances)
          (if results.distances.isEmpty then 1
            else if pyListMin results.distances < pyListMax results.distances
            then pyListMax results.distances - pyListMin results.distances
            else 1)
          (results.distances.getD i 0) } := by
    unfold formatResults
    simp [list_isEmpty_false hne, List.getElem?_map, List.getElem?_range, hi2]
  have h2 : (formatResults results)[i]? =
      some ((formatResults results).get ⟨i, hi⟩) := by
    simp [List.getElem?_eq_getElem hi]
  rw [h1] at h2
  exact (Option.some.inj h2).symm

/-- C7: each formatted result carries a score in the unit interval computed
by min-max normalization over the result set: 1 at the minimum distance,
0 at the maximum distance when the distances are not all equal, and 1 for
every result when they are. -/
theorem c7_format_results_scores (results : SearchResults)
    (hne : results.ids ≠ [])
    (hlen : results.distances.length = results.ids.length) :
    (∀ i (hi : i < (formatResults results).length),
      0 ≤ ((formatResults results).get ⟨i, hi⟩).score ∧
      ((formatResults results).get ⟨i, hi⟩).score ≤ 1) ∧
    (∀ i (hi : i < (formatResults results).length),
      results.distances.getD i 0 = pyListMin results.distances →
      ((formatResults results).get ⟨i, hi⟩).score = 1) ∧
    (pyListMin results.distances ≠ pyListMax results.distances →
      ∀ i (hi : i < (formatResults results).length),
      results.distances.getD i 0 = pyListMax results.distances →
      ((formatResults results).get ⟨i, hi⟩).score = 0) ∧
    (pyListMin results.distances = pyListMax results.distances →
      ∀ i (hi : i < (formatResults results).length),
      ((formatResults results).get ⟨i, hi⟩).score = 1) := by
  have hdne : results.distances ≠ [] := by
    intro h0
    rw [h0] at hlen
    exact hne (List.length_eq_zero.mp hlen.symm)
  have hisE : results.distances.isEmpty = false := list_isEmpty_false hdne
  have hDmem : ∀ i, i < (formatResults results).length →
      results.distances.getD i 0 ∈ results.distances := by
    intro i hi
    have hi2 : i < results.distances.length := by
      rw [hlen, ← formatResults_length results hne]
      exact hi
    rw [List.getD_eq_getElem?_getD, List.getElem?_eq_getElem hi2,
      Option.getD_some]
    exact List.getElem_mem hi2
  refine ⟨?_, ?_, ?_, ?_⟩
  · intro i hi
    rw [formatResults_get results hne i hi]
    exact scoreOf_bounds _ _ _
  · intro i hi hmin
    rw [formatResults_get results hne i hi]
    show scoreOf _ _ _ = 1
    rw [hmin]
    simp only [hisE, Bool.false_eq_true, if_false]
    exact scoreOf_at_min _ _
  · intro hne2 i hi hmax
    have hmm : pyListMin results.distances ≤ pyListMax results.distances :=
      le_pyListMax _ (pyListMin_mem hdne)
    have hlt : pyListMin results.distances < pyListMax results.distances :=
      lt_of_le_of_ne hmm hne2
    rw [formatResults_get results hne i hi]
    show scoreOf _ _ _ = 0
    rw [hmax]
    simp only [hisE, Bool.false_eq_true, if_false, if_pos hlt]
    exact scoreOf_at_max hlt
  · intro heq i hi
    have hx := hDmem i hi
    have h1 : pyListMin results.distances ≤ results.distances.getD i 0 :=
      pyListMin_le _ hx
    have h2 : results.distances.getD i 0 ≤ pyListMax results.distances :=
      le_pyListMax _ hx
    have hdi : results.distances.getD i 0 = pyListMin results.distances := by
      rw [heq] at h1 ⊢
      exact le_antisymm h2 h1
    rw [formatResults_get results hne i hi]
    show scoreOf _ _ _ = 1
    rw [hdi]
    simp only [hisE, Bool.false_eq_true, if_false]
    exact scoreOf_at_min _ _

/-- Concrete search results used to instantiate the C7 theorem. -/
def c7results : SearchResults :=
  { ids := ["d1_chunk_0", "d1_chunk_1"], documents := ["alpha", "beta"],
    metadatas := [metaEmpty, metaEmpty], distances := [1/2, 1/4] }

/-- Witness for the C7 theorem at concrete search results. -/
theorem c7_format_results_scores_witness :
    c7results.ids ≠ [] ∧
    c7results.distances.length = c7results.ids.length ∧
    ((∀ i (hi : i < (formatResults c7results).length),
      0 ≤ ((formatResults c7results).get ⟨i, hi⟩).score ∧
      ((formatResults c7results).get ⟨i, hi⟩).score ≤ 1) ∧
    (∀ i (hi : i < (formatResults c7results).length),
      c7results.distances.getD i 0 = pyListMin c7results.distances →
      ((formatResults c7results).get ⟨i, hi⟩).score = 1) ∧
    (pyListMin c7results.distances ≠ pyListMax c7results.distances →
      ∀ i (hi : i < (formatResults c7results).length),
      c7results.distances.getD i 0 = pyListMax c7results.distances →
      ((formatResults c7results).get ⟨i, hi⟩).score = 0) ∧
    (pyListMin c7results.distances = pyListMax c7results.distances →
      ∀ i (hi : i < (formatResults c7results).length),
      ((formatResults c7results).get ⟨i, hi⟩).score = 1)) :=
  ⟨by simp [c7results], by rfl,
    c7_format_results_scores c7results (by simp [c7results]) (by rfl)⟩

/-! ## Retriever filter building (Retriever._build_filters) -/

/-- A ChromaDB where clause: field equality, field set-membership, or a
conjunction of clauses. -/
inductive WhereClause where
  | eqC (field : String) (value : JValue)
  | inC (field : String) (values : List JValue)
  | andC (clauses : List WhereClause)

/-- Lookup of one key in the required_filters mapping of a query analysis
(whose values, per the claim, are lists). -/
def rfLookup (rf : List (String × List JValue)) (k : String) :
    Option (List JValue) :=
  (rf.find? (fun p => p.1 = k)).map (fun p => p.2)

/-- The clauses contributed by one handled field: nothing when the key is
absent or its list is empty (falsy), an equality clause for a singleton,
the set-membership clause otherwise. -/
def clauseList (rf : List (String × List JValue)) (f : String) :
    List WhereClause :=
  match rfLookup rf f with
  | some l =>
      if l.isEmpty then []
      else if l.length = 1 then [.eqC f (l.headD .null)]
      else [.inC f l]
  | none => []

/-- Retriever._build_filters: early None on an empty required_filters dict;
clauses only for document_type and department; one clause stands alone, two
are combined under an and. -/
def buildFilters (rf : List (String × List JValue)) : Option WhereClause :=
  if rf.isEmpty then none
  else
    match clauseList rf kDocumentType ++ clauseList rf kDepartment with
    | [] => none
    | [c] => some c
    | cs => some (.andC cs)

/-- The clause the specification describes for one field: single value
gives equality, multiple values give set-membership, otherwise nothing. -/
def clauseForSpec (f : String) : Option (List JValue) → Option WhereClause
  | some [v] => some (.eqC f v)
  | some (v :: w :: rest) => some (.inC f (v :: w :: rest))
  | _ => none

/-- The filter the specification describes: clauses only from
required_filters document_type and department, a lone clause standing
alone, two clauses joined under a logical and, and no filter at all when
neither field contributes. -/
def buildFiltersSpec (rf : List (String × List JValue)) : Option WhereClause :=
  match clauseForSpec kDocumentType (rfLookup rf kDocumentType),
        clauseForSpec kDepartment (rfLookup rf kDepartment) with
  | none, none => none
  | some c, none => some c
  | none, some c => some c
  | some c1, some c2 => some (.andC [c1, c2])

theorem clauseList_eq (rf : List (String × List JValue)) (f : String) :
    clauseList rf f = (clauseForSpec f (rfLookup rf f)).toList := by
  unfold clauseList clauseForSpec
  rcases rfLookup rf f with _ | l
  · rfl
  · match l with
    | [] => rfl
    | [v] => rfl
    | v :: w :: t =>
      have h2 : ¬ ((v :: w :: t).length = 1) := by simp
      simp [h2]

/-- C8: the built store filter coincides with the specification: clauses
only for document_type and department (never topics or audience), equality
for a single value, set-membership for several, a logical and for two
clauses, and None when neither field contributes a filter. -/
theorem c8_build_filters (rf : List (String × List JValue)) :
    buildFilters rf = buildFiltersSpec rf := by
  by_cases hrf : rf.isEmpty
  · have h0 : rf = [] := by
      cases rf with
      | nil => rfl
      | cons a t => exact absurd hrf (by simp)
    subst h0
    rfl
  · unfold buildFilters buildFiltersSpec
    rw [if_neg (by simp [hrf]), clauseList_eq, clauseList_eq]
    rcases clauseForSpec kDocumentType (rfLookup rf kDocumentType) with _ | c1 <;>
      rcases clauseForSpec kDepartment (rfLookup rf kDepartment) with _ | c2 <;>
      rfl

/-! ## Orchestration (src/orchestration/state.py, nodes.py, graph.py)

The LLM-dependent stage outcomes (classifier call, extractor call), the
tokenization of the document and the usage counters are external inputs,
collected in PipelineDeps; each node embeds its Python try/except structure,
converting a stage failure into a failed state. -/

/-- GraphState: required keys are plain fields, NotRequired keys are
options. -/
structure GraphState where
  document_id : String
  raw_text : String
  filename : Option String
  classification : Option ClassificationResult
  extraction_strategy : Option String
  doc_metadata : Option PyDict
  chunks : Option (List DocumentChunk)
  enriched_chunks : Option (List DocumentChunk)
  validation_errors : Option (List String)
  validation_warnings : Option (List String)
  is_valid : Option Bool
  status : String
  error : Option String
  error_stage : Option String
  processing_time : Option ℚ
  tokens_used : Option ℕ
  estimated_cost : Option ℚ

/-- create_initial_state: document identity, pending status, filename only
when truthy. -/
def createInitialState (docId text : String) (fname : Option String) :
    GraphState :=
  { document_id := docId, raw_text := text,
    filename := match fname with
      | some f => if f ≠ "" then some f else none
      | none => none,
    classification := none, extraction_strategy := none, doc_metadata := none,
    chunks := none, enriched_chunks := none, validation_errors := none,
    validation_warnings := none, is_valid := none, status := "pending",
    error := none, error_stage := none, processing_time := none,
    tokens_used := none, estimated_cost := none }

/-- mark_as_failed: set status, error and error_stage. -/
def markAsFailed (s : GraphState) (e st : String) : GraphState :=
  { s with status := "failed", error := some e, error_stage := some st }

/-- mark_as_completed. -/
def markAsCompleted (s : GraphState) : GraphState :=
  { s with status := "completed" }

/-- External inputs of one pipeline run. -/
structure PipelineDeps where
  classifyOutcome : Except String ClassificationResult
  extractOutcome : Except String PyDict
  tokens : List ℕ
  decode : List ℕ → String
  processingTime : ℚ
  tokensUsed : ℕ
  totalCost : ℚ

/-- classify_document_node. -/
def classifyNode (d : PipelineDeps) (s0 : GraphState) : GraphState :=
  let s := { s0 with status := "classifying" }
  match d.classifyOutcome with
  | .ok c =>
      { s with
        classification := some c,
        extraction_strategy := some (getExtractionStrategy c),
        status := "extracting_metadata" }
  | .error e =>
      markAsFailed s ("Classification failed: " ++ e) "classification"

/-- extract_doc_metadata_node. -/
def extractDocMetadataNode (d : PipelineDeps) (s : GraphState) : GraphState :=
  match s.classification with
  | none =>
      markAsFailed s "Document metadata extraction failed: KeyError"
        "doc_metadata_extraction"
  | some _ =>
      match d.extractOutcome with
      | .ok md => { s with doc_metadata := some md, status := "chunking" }
      | .error e =>
          markAsFailed s ("Document metadata extraction failed: " ++ e)
            "doc_metadata_extraction"

/-- chunk_document_node (the node hardcodes size 500, overlap 50). -/
def chunkDocumentNode (d : PipelineDeps) (s : GraphState) : GraphState :=
  match s.doc_metadata with
  | none => markAsFailed s "Document chunking failed: KeyError" "chunking"
  | some md =>
      let cs := chunkDocument d.decode md d.tokens 500 50 (by omega)
      let s2 := { s with chunks := some cs }
      match s2.classification with
      | none => markAsFailed s2 "Document chunking failed: KeyError" "chunking"
      | some c =>
          { s2 with status := if jTruthy c.requires_deep_analysis then
              "extracting_chunks" else "validating" }

/-- extract_chunk_metadata_node (the pass-through stub). -/
def extractChunkMetadataNode (s : GraphState) : GraphState :=
  match s.chunks with
  | some cs => { s with enriched_chunks := some cs, status := "validating" }
  | none =>
      markAsFailed s "Chunk metadata extraction failed: KeyError"
        "chunk_metadata_extraction"

def lowConfWarning : String :=
  "Low confidence classification - manual review recommended"

/-- validate_metadata_node: validator call with strict=False inside an
inner try for MetadataValidationError, outer catch-all converting anything
else into a failed state. -/
def validateMetadataNode (s : GraphState) : GraphState :=
  match s.doc_metadata with
  | none =>
      markAsFailed s "Validation failed unexpectedly: KeyError" "validation"
  | some md =>
      match pyValidate md false true with
      | .ok vmd =>
          let s2 := { s with doc_metadata := some vmd }
          match getValidationSummary vmd with
          | .ok sum =>
              let warnings :=
                if sum.is_low_confidence then [lowConfWarning] else []
              { s2 with
                is_valid := some sum.is_valid,
                validation_errors := some sum.errors,
                validation_warnings := some warnings,
                status := "completed" }
          | .error _ =>
              markAsFailed s2 "Validation failed unexpectedly: TypeError"
                "validation"
      | .error (.validationErr errs) =>
          { s with
            is_valid := some false,
            validation_errors := some errs,
            validation_warnings := some [],
            status := "completed" }
      | .error .typeErr =>
          markAsFailed s "Validation failed unexpectedly: TypeError"
            "validation"

/-- handle_error_node only logs; the failing node already marked the
state. -/
def handleErrorNode (s : GraphState) : GraphState := s

/-- should_extract_chunk_metadata conditional-edge function. -/
def shouldExtractChunkMetadataEdge (s : GraphState) : String :=
  match s.classification with
  | some c =>
      if jTruthy c.requires_deep_analysis then "extract_chunks"
      else "validate"
  | none => "validate"

/-- The compiled graph: classify, extract, chunk with failure edges to
handle_error, conditional edge to the chunk-metadata stub, validation,
END. -/
def graphInvoke (d : PipelineDeps) (s0 : GraphState) : GraphState :=
  let s1 := classifyNode d s0
  if s1.status = "failed" then handleErrorNode s1
  else
    let s2 := extractDocMetadataNode d s1
    if s2.status = "failed" then handleErrorNode s2
    else
      let s3 := chunkDocumentNode d s2
      if s3.status = "failed" then handleErrorNode s3
      else if shouldExtractChunkMetadataEdge s3 = "extract_chunks" then
        validateMetadataNode (extractChunkMetadataNode s3)
      else validateMetadataNode s3

/-- MetadataExtractionPipeline.run: initial state, graph invocation, then
timing and usage accounting on the final state. -/
def pipelineRun (d : PipelineDeps) (docId text : String)
    (fname : Option String) : GraphState :=
  let final := graphInvoke d (createInitialState docId text fname)
  { final with
    processing_time := some d.processingTime,
    tokens_used := some d.tokensUsed,
    estimated_cost := some d.totalCost }

theorem str_append_ne_empty (a b : String) (ha : a ≠ "") : a ++ b ≠ "" := by
  intro h
  apply ha
  have hd : (a ++ b).data = [] := congrArg String.data h
  rw [String.data_append] at hd
  have h1 : a.data = [] := (List.append_eq_nil.mp hd).1
  cases a
  simp only at h1
  rw [h1]

theorem validateMetadataNode_goal (s : GraphState) (md : PyDict)
    (hmd : s.doc_metadata = some md) :
    ((validateMetadataNode s).status = "completed" ∨
      (validateMetadataNode s).status = "failed") ∧
    ((validateMetadataNode s).status = "failed" →
      (∃ e, (validateMetadataNode s).error = some e ∧ e ≠ "") ∧
      (∃ st, (validateMetadataNode s).error_stage = some st ∧ st ≠ "")) := by
  unfold validateMetadataNode
  rw [hmd]
  dsimp only
  rcases hv : pyValidate md false true with verr | vmd
  · cases verr with
    | validationErr errs =>
      constructor
      · left
        rfl
      · intro hf
        have h2 : ("completed" : String) = "failed" := hf
        exact absurd h2 (by decide)
    | typeErr =>
      constructor
      · right
        rfl
      · intro hf
        exact ⟨⟨"Validation failed unexpectedly: TypeError", rfl, by decide⟩,
          ⟨"validation", rfl, by decide⟩⟩
  · dsimp only
    rcases hs : getValidationSummary vmd with u | sum
    · constructor
      · right
        rfl
      · intro hf
        exact ⟨⟨"Validation failed unexpectedly: TypeError", rfl, by decide⟩,
          ⟨"validation", rfl, by decide⟩⟩
    · constructor
      · left
        rfl
      · intro hf
        have h2 : ("completed" : String) = "failed" := hf
        exact absurd h2 (by decide)

theorem graphInvoke_goal (d : PipelineDeps) (s0 : GraphState) :
    ((graphInvoke d s0).status = "completed" ∨
      (graphInvoke d s0).status = "failed") ∧
    ((graphInvoke d s0).status = "failed" →
      (∃ e, (graphInvoke d s0).error = some e ∧ e ≠ "") ∧
      (∃ st, (graphInvoke d s0).error_stage = some st ∧ st ≠ "")) := by
  rcases hc : d.classifyOutcome with e | c
  · have h1 : graphInvoke d s0 =
        markAsFailed { s0 with status := "classifying" }
          ("Classification failed: " ++ e) "classification" := by
      unfold graphInvoke classifyNode
      rw [hc]
      rfl
    rw [h1]
    exact ⟨Or.inr rfl, fun hf =>
      ⟨⟨_, rfl, str_append_ne_empty _ _ (by decide)⟩, ⟨_, rfl, by decide⟩⟩⟩
  · rcases he : d.extractOutcome with e2 | md
    · have h1 : graphInvoke d s0 =
          markAsFailed
            { s0 with
              classification := some c,
              extraction_strategy := some (getExtractionStrategy c),
              status := "extracting_metadata" }
            ("Document metadata extraction failed: " ++ e2)
            "doc_metadata_extraction" := by
        unfold graphInvoke classifyNode extractDocMetadataNode
        rw [hc, he]
        rfl
      rw [h1]
      exact ⟨Or.inr rfl, fun hf =>
        ⟨⟨_, rfl, str_append_ne_empty _ _ (by decide)⟩, ⟨_, rfl, by decide⟩⟩⟩
    · cases hb : jTruthy c.requires_deep_analysis
      · have h1 : graphInvoke d s0 = validateMetadataNode
            { s0 with
              classification := some c,
              extraction_strategy := some (getExtractionStrategy c),
              doc_metadata := some md,
              chunks := some (chunkDocument d.decode md d.tokens 500 50
                (by omega)),
              status := "validating" } := by
          unfold graphInvoke classifyNode extractDocMetadataNode
            chunkDocumentNode shouldExtractChunkMetadataEdge
          rw [hc, he]
          dsimp only
          rw [hb]
          rfl
        rw [h1]
        exact validateMetadataNode_goal _ md rfl
      · have h1 : graphInvoke d s0 = validateMetadataNode
            { s0 with
              classification := some c,
              extraction_strategy := some (getExtractionStrategy c),
              doc_metadata := some md,
              chunks := some (chunkDocument d.decode md d.tokens 500 50
                (by omega)),
              enriched_chunks := some (chunkDocument d.decode md d.tokens
                500 50 (by omega)),
              status := "validating" } := by
          unfold graphInvoke classifyNode extractDocMetadataNode
            chunkDocumentNode shouldExtractChunkMetadataEdge
            extractChunkMetadataNode
          rw [hc, he]
          dsimp only
          rw [hb]
          rfl
        rw [h1]
        exact validateMetadataNode_goal _ md rfl

/-- C1: every run of the pipeline ends with status "completed" or
"failed", and a "failed" final state carries a non-empty error message
and a non-empty error_stage. -/
theorem c1_pipeline_terminal_status (d : PipelineDeps) (docId text : String)
    (fname : Option String) :
    ((pipelineRun d docId text fname).status = "completed" ∨
      (pipelineRun d docId text fname).status = "failed") ∧
    ((pipelineRun d docId text fname).status = "failed" →
      (∃ e, (pipelineRun d docId text fname).error = some e ∧ e ≠ "") ∧
      (∃ st, (pipelineRun d docId text fname).error_stage = some st ∧
        st ≠ "")) :=
  graphInvoke_goal d (createInitialState docId text fname)

/-- C10: mark_as_failed sets status to "failed" and records the error
message and failing stage, leaving every other field of the state
unchanged. -/
theorem c10_mark_as_failed_frame (s : GraphState) (e st : String) :
    (markAsFailed s e st).status = "failed" ∧
    (markAsFailed s e st).error = some e ∧
    (markAsFailed s e st).error_stage = some st ∧
    (markAsFailed s e st).document_id = s.document_id ∧
    (markAsFailed s e st).raw_text = s.raw_text ∧
    (markAsFailed s e st).filename = s.filename ∧
    (markAsFailed s e st).classification = s.classification ∧
    (markAsFailed s e st).extraction_strategy = s.extraction_strategy ∧
    (markAsFailed s e st).doc_metadata = s.doc_metadata ∧
    (markAsFailed s e st).chunks = s.chunks ∧
    (markAsFailed s e st).enriched_chunks = s.enriched_chunks ∧
    (markAsFailed s e st).validation_errors = s.validation_errors ∧
    (markAsFailed s e st).validation_warnings = s.validation_warnings ∧
    (markAsFailed s e st).is_valid = s.is_valid ∧
    (markAsFailed s e st).processing_time = s.processing_time ∧
    (markAsFailed s e st).tokens_used = s.tokens_used ∧
    (markAsFailed s e st).estimated_cost = s.estimated_cost :=
  ⟨rfl, rfl, rfl, rfl, rfl, rfl, rfl, rfl, rfl, rfl, rfl, rfl, rfl, rfl,
    rfl, rfl, rfl⟩
